import Mathlib

/-! Shallow embedding of the claude-chat session worker: the single-session
state machine of src/server/worker/src/session-do.ts together with the
sliding-window rate limiter of src/server/worker/src/rate-limiter.ts and the
schemas/response shapes of the protocol package.  JavaScript Maps become
insertion-ordered association lists, Date.now() becomes an explicit
natural-number argument of each operation, and randomly generated
identifiers, passwords and auth tokens become explicit inputs.  Password
hashing is modelled as an injective tagging function, matching the opaque
hash/verify interface the handlers rely on. -/

namespace ClaudeChat

/-- JavaScript Map.get on an insertion-ordered association list. -/
def mapGet {α : Type} (m : List (String × α)) (k : String) : Option α :=
  match m.find? (fun e => e.1 == k) with
  | some e => some e.2
  | none => none

/-- JavaScript Map.set: replace in place if the key is present, else append. -/
def mapSet {α : Type} (m : List (String × α)) (k : String) (v : α) :
    List (String × α) :=
  if m.any (fun e => e.1 == k) then
    m.map (fun e => if e.1 == k then (k, v) else e)
  else
    m ++ [(k, v)]

/-- JavaScript Map.delete. -/
def mapDelete {α : Type} (m : List (String × α)) (k : String) :
    List (String × α) :=
  m.filter (fun e => e.1 != k)

/-- Array.prototype.findIndex, with none standing for -1. -/
def listFindIndex {α : Type} (p : α → Bool) : List α → Option Nat
  | [] => none
  | a :: t => if p a then some 0 else (listFindIndex p t).map (fun i => i + 1)

instance {ε α : Type} [DecidableEq ε] [DecidableEq α] : DecidableEq (Except ε α) :=
  fun x y =>
    match x, y with
    | .error a, .error b =>
      if h : a = b then isTrue (by rw [h]) else isFalse (by simp [h])
    | .ok a, .ok b =>
      if h : a = b then isTrue (by rw [h]) else isFalse (by simp [h])
    | .error _, .ok _ => isFalse (by simp)
    | .ok _, .error _ => isFalse (by simp)

/-- Truthiness of a string-or-missing value (null, undefined and the empty
string are falsy in JavaScript). -/
def strTruthy : Option String → Bool
  | none => false
  | some s => s != ""

/-- Extract the string from an optional value, with the empty string for the
missing case (used only after a strTruthy check succeeded). -/
def getStr : Option String → String
  | none => ""
  | some s => s

/-! ### Protocol constants (packages/protocol/src/session.ts) -/

def SESSION_TTL_MS : Nat := 7 * 24 * 60 * 60 * 1000

def MAX_MESSAGES : Nat := 1000

def DEFAULT_MESSAGE_LIMIT : Nat := 100

def MAX_MESSAGE_LIMIT : Nat := 500

def MAX_PARTICIPANTS : Nat := 3

/-! ### Error taxonomy (packages/protocol/src/errors.ts) -/

inductive ErrorCode where
  | VALIDATION_ERROR
  | SESSION_NOT_FOUND
  | SESSION_ENDED
  | SESSION_FULL
  | INVALID_PASSWORD
  | ADMIN_REQUIRED
  | NOT_PARTICIPANT
  | PARTICIPANT_NOT_FOUND
  | RATE_LIMITED
  | INTERNAL_ERROR
  deriving Repr, DecidableEq

/-- ChatError: a typed error with an HTTP status. -/
structure ChatError where
  message : String
  code : ErrorCode
  httpStatus : Nat
  deriving Repr, DecidableEq

/-! ### Password hashing (packages/protocol/src/crypto.ts), modelled as the
opaque capability hash(secret) -> digest / verify(secret, digest) -> bool
that the handlers consume; the tag makes the model injective. -/

def hashPassword (secret : String) : String := "pbkdf2$" ++ secret

def verifyPassword (secret stored : String) : Bool := stored == hashPassword secret

/-! ### Rate limiter (src/server/worker/src/rate-limiter.ts) -/

structure RateLimitConfig where
  maxRequests : Nat
  windowMs : Nat
  deriving Repr, DecidableEq

structure RateLimitResult where
  allowed : Bool
  remaining : Nat
  resetAt : Nat
  deriving Repr, DecidableEq

structure RateLimiter where
  requests : List (String × List Nat)
  config : RateLimitConfig
  deriving Repr, DecidableEq

def RATE_LIMITS_SESSION_JOIN : RateLimitConfig := ⟨20, 60000⟩

def RATE_LIMITS_MESSAGE_SEND : RateLimitConfig := ⟨60, 60000⟩

def RATE_LIMITS_MESSAGE_READ : RateLimitConfig := ⟨120, 60000⟩

def RATE_LIMITS_GENERAL : RateLimitConfig := ⟨300, 60000⟩

/-- RateLimiter.check: filter the key's timestamps to the trailing window,
reject without recording when at capacity, else record the request.  The
window start is an integer because now minus the window may be negative. -/
def RateLimiter.check (rl : RateLimiter) (key : String) (now : Nat) :
    RateLimitResult × RateLimiter :=
  let windowStart : Int := (now : Int) - (rl.config.windowMs : Int)
  let timestamps : List Nat := ((mapGet rl.requests key).getD []).filter
    (fun t => decide (((t : Nat) : Int) > windowStart))
  let remaining := rl.config.maxRequests - timestamps.length
  let resetAt :=
    match timestamps.head? with
    | some t => t + rl.config.windowMs
    | none => now + rl.config.windowMs
  if timestamps.length ≥ rl.config.maxRequests then
    (⟨false, 0, resetAt⟩, ⟨mapSet rl.requests key timestamps, rl.config⟩)
  else
    (⟨true, remaining - 1, resetAt⟩,
      ⟨mapSet rl.requests key (timestamps ++ [now]), rl.config⟩)

/-- SessionDO.checkRateLimit: run the limiter and fail with RATE_LIMITED 429
when it rejects; the limiter state is updated either way. -/
def checkRateLimit (rl : RateLimiter) (key : String) (now : Nat) :
    Except ChatError Unit × RateLimiter :=
  let r := rl.check key now
  if r.1.allowed then (.ok (), r.2)
  else (.error ⟨"Rate limit exceeded. Try again later.", .RATE_LIMITED, 429⟩, r.2)

/-- Number of events currently in the window for a key (the quantity the
limiter compares against maxRequests). -/
def RateLimiter.countInWindow (rl : RateLimiter) (key : String) (now : Nat) : Nat :=
  (((mapGet rl.requests key).getD []).filter
    (fun t => decide (((t : Nat) : Int) > (now : Int) - (rl.config.windowMs : Int)))).length

/-- LimitSchema on an optional already-coerced limit query parameter:
an integer in 1..MAX_MESSAGE_LIMIT when present. -/
def validLimitParam : Option Nat → Bool
  | none => true
  | some l => decide (1 ≤ l) && decide (l ≤ MAX_MESSAGE_LIMIT)

/-- The optional admin password field of RemoveParticipantRequestSchema:
when present it must be a nonempty string. -/
def validOptPassword : Option String → Bool
  | none => true
  | some p => decide (1 ≤ p.length)

/-- The trim of DisplayNameSchema (String.prototype.trim): strip leading and
trailing whitespace.  Defined on the character list so that it evaluates
inside the kernel. -/
def strTrim (s : String) : String :=
  String.mk (((s.data.dropWhile Char.isWhitespace).reverse.dropWhile
    Char.isWhitespace).reverse)

/-- Cursor resolution of handleReadMessages: the explicit after parameter
wins if present (even when empty), else the participant's stored cursor. -/
def resolveCursor (cursors : List (String × String)) (pid : String)
    (after : Option String) : Option String :=
  match after with
  | some a => some a
  | none => mapGet cursors pid

/-- The sliding-window append of handleSendMessage on the in-memory message
list: push, then drop the oldest excess beyond the cap (slice(-max)). -/
def slideAppend {α : Type} (maxLen : Nat) (l : List α) (a : α) : List α :=
  let l2 := l ++ [a]
  if l2.length > maxLen then l2.drop (l2.length - maxLen) else l2

/-! ### Stored entities (shapes as used by session-do.ts) -/

structure StoredSession where
  id : String
  passwordHash : String
  adminPasswordHash : String
  createdAt : Nat
  createdBy : String
  expiresAt : Nat
  lastActivity : Nat
  ended : Bool
  deriving Repr, DecidableEq

structure StoredParticipant where
  id : String
  displayName : String
  joinedAt : Nat
  lastSeen : Nat
  isAdmin : Bool
  authTokenHash : Option String
  deriving Repr, DecidableEq

/-- A stored message; the source field named after the sending participant is
a reserved word in Lean and is called sender here. -/
structure StoredMessage where
  id : String
  sender : String
  content : String
  timestamp : Nat
  deriving Repr, DecidableEq

/-- Start of the unread slice in handleReadMessages: one past the cursor's
position when the (truthy) cursor is the id of a stored message, else the
start of the log. -/
def cursorStart (messages : List StoredMessage) (cursor : Option String) : Nat :=
  if strTruthy cursor then
    match listFindIndex (fun m => m.id == getStr cursor) messages with
    | some i => i + 1
    | none => 0
  else 0

/-- The page computation of handleReadMessages: slice limit+1 messages from
the start index, report has_more when more than limit were available, and
return at most limit of them. -/
def sliceAfter (messages : List StoredMessage) (s limit : Nat) :
    List StoredMessage × Bool :=
  let messagesSlice := (messages.drop s).take (limit + 1)
  let hasMore := decide (messagesSlice.length > limit)
  (if hasMore then messagesSlice.take limit else messagesSlice, hasMore)

/-! ### Response shapes (packages/protocol/src/responses.ts, token-bearing
variant as built by session-do.ts; constant success fields are omitted) -/

structure ParticipantInfo where
  id : String
  display_name : String
  joined_at : Nat
  is_admin : Bool
  deriving Repr, DecidableEq

structure MessageSenderInfo where
  id : String
  display_name : String
  deriving Repr, DecidableEq

structure MessageInfo where
  id : String
  sender : MessageSenderInfo
  content : String
  timestamp : Nat
  deriving Repr, DecidableEq

def toParticipantInfo (p : StoredParticipant) : ParticipantInfo :=
  ⟨p.id, p.displayName, p.joinedAt, p.isAdmin⟩

/-- toMessageInfo: resolve the sender display name, with Unknown when the
sender has since left the session. -/
def toMessageInfo (m : StoredMessage)
    (participants : List (String × StoredParticipant)) : MessageInfo :=
  let dn :=
    match mapGet participants m.sender with
    | some p => p.displayName
    | none => "Unknown"
  ⟨m.id, ⟨m.sender, dn⟩, m.content, m.timestamp⟩

structure CreateSessionResponse where
  session_id : String
  session_password : String
  admin_password : String
  participant_id : String
  auth_token : String
  created_at : Nat
  expires_at : Nat
  deriving Repr, DecidableEq

structure JoinSessionResponse where
  participant_id : String
  auth_token : String
  participants : List ParticipantInfo
  deriving Repr, DecidableEq

structure SendMessageResponse where
  message_id : String
  timestamp : Nat
  deriving Repr, DecidableEq

structure ReadMessagesResponse where
  messages : List MessageInfo
  next_cursor : Option String
  has_more : Bool
  deriving Repr, DecidableEq

structure ListParticipantsResponse where
  participants : List ParticipantInfo
  deriving Repr, DecidableEq

structure SessionInfoResponse where
  session_id : String
  created_at : Nat
  expires_at : Nat
  participant_count : Nat
  message_count : Nat
  is_ended : Bool
  deriving Repr, DecidableEq

/-! ### The in-memory Durable Object state -/

structure DOState where
  session : Option StoredSession
  participants : List (String × StoredParticipant)
  messages : List StoredMessage
  messageIds : List String
  readCursors : List (String × String)
  maxMessages : Nat
  maxMessageLength : Nat
  joinLimiter : RateLimiter
  sendLimiter : RateLimiter
  readLimiter : RateLimiter
  generalLimiter : RateLimiter
  deriving Repr, DecidableEq

/-- A fresh SessionDO instance over empty storage (constructor plus the first
initialize()); the two caps come from deployment configuration, defaulting to
MAX_MESSAGES and 50000. -/
def initialState (maxMessages maxMessageLength : Nat) : DOState where
  session := none
  participants := []
  messages := []
  messageIds := []
  readCursors := []
  maxMessages := maxMessages
  maxMessageLength := maxMessageLength
  joinLimiter := ⟨[], RATE_LIMITS_SESSION_JOIN⟩
  sendLimiter := ⟨[], RATE_LIMITS_MESSAGE_SEND⟩
  readLimiter := ⟨[], RATE_LIMITS_MESSAGE_READ⟩
  generalLimiter := ⟨[], RATE_LIMITS_GENERAL⟩

/-- SessionDO.updateActivity on the session record: refresh lastActivity and
slide the expiry, but only while the session is not ended. -/
def refreshSession (sess : StoredSession) (now : Nat) : StoredSession :=
  if !sess.ended then
    { sess with lastActivity := now, expiresAt := now + SESSION_TTL_MS }
  else sess

/-- SessionDO.requireParticipantAuth: the named participant must exist and
the presented token must verify against its stored digest. -/
def requireParticipantAuth (participants : List (String × StoredParticipant))
    (participantId : String) (authToken : Option String) :
    Except ChatError StoredParticipant :=
  if !(strTruthy authToken) then
    .error ⟨"Participant auth token required", .INVALID_PASSWORD, 401⟩
  else
    match mapGet participants participantId with
    | none => .error ⟨"Not a participant in this session", .NOT_PARTICIPANT, 403⟩
    | some participant =>
      if !(strTruthy participant.authTokenHash) then
        .error ⟨"Participant auth token required", .INVALID_PASSWORD, 401⟩
      else if verifyPassword (getStr authToken) (getStr participant.authTokenHash) then
        .ok participant
      else
        .error ⟨"Invalid participant auth token", .INVALID_PASSWORD, 401⟩

/-- SessionDO.requireRequester: identify the caller by scanning every stored
participant token digest in insertion order; first verifying digest wins. -/
def requireRequester (participants : List (String × StoredParticipant))
    (authToken : Option String) : Except ChatError StoredParticipant :=
  if !(strTruthy authToken) then
    .error ⟨"Participant auth token required", .INVALID_PASSWORD, 401⟩
  else
    match participants.find? (fun e =>
        strTruthy e.2.authTokenHash &&
          verifyPassword (getStr authToken) (getStr e.2.authTokenHash)) with
    | some e => .ok e.2
    | none => .error ⟨"Invalid participant auth token", .INVALID_PASSWORD, 401⟩

/-! ### Handler inputs: parsed request bodies, headers, query parameters,
and the oracle inputs (clock and generated identifiers and secrets) -/

structure CreateInput where
  display_name : String
  sessionId : String
  sessionPassword : String
  adminPassword : String
  participantId : String
  authToken : String
  now : Nat
  deriving Repr, DecidableEq

structure JoinInput where
  sessionPassword : Option String
  display_name : String
  participantId : String
  authToken : String
  now : Nat
  deriving Repr, DecidableEq

structure SendInput where
  sessionPassword : Option String
  authToken : Option String
  participant_id : String
  content : String
  msgId : String
  now : Nat
  deriving Repr, DecidableEq

structure ReadInput where
  sessionPassword : Option String
  authToken : Option String
  participant_id : String
  limitParam : Option Nat
  after : Option String
  now : Nat
  deriving Repr, DecidableEq

structure SimpleInput where
  sessionPassword : Option String
  now : Nat
  deriving Repr, DecidableEq

structure RemoveInput where
  sessionPassword : Option String
  adminPassword : Option String
  authToken : Option String
  targetId : String
  now : Nat
  deriving Repr, DecidableEq

structure EndInput where
  adminPassword : Option String
  now : Nat
  deriving Repr, DecidableEq

/-! ### Handlers (session-do.ts).  Each returns the typed result together
with the successor in-memory state; mutations made before a throw are kept,
as they are on the instance in the source. -/

/-- SessionDO.handleCreate.  The generated passwords, ids and token are
inputs; DisplayNameSchema trims the name and requires length 1..100. -/
def handleCreate (st : DOState) (inp : CreateInput) :
    Except ChatError CreateSessionResponse × DOState :=
  match st.session with
  | some _ => (.error ⟨"Session already exists", .INTERNAL_ERROR, 400⟩, st)
  | none =>
    if ¬(1 ≤ (strTrim inp.display_name).length ∧ (strTrim inp.display_name).length ≤ 100) then
      (.error ⟨"Display name is required", .VALIDATION_ERROR, 400⟩, st)
    else
      let now := inp.now
      let sess : StoredSession :=
        { id := inp.sessionId
          passwordHash := hashPassword inp.sessionPassword
          adminPasswordHash := hashPassword inp.adminPassword
          createdAt := now
          createdBy := inp.participantId
          expiresAt := now + SESSION_TTL_MS
          lastActivity := now
          ended := false }
      let participant : StoredParticipant :=
        { id := inp.participantId
          displayName := strTrim inp.display_name
          joinedAt := now
          lastSeen := now
          isAdmin := true
          authTokenHash := some (hashPassword inp.authToken) }
      (.ok { session_id := inp.sessionId
             session_password := inp.sessionPassword
             admin_password := inp.adminPassword
             participant_id := inp.participantId
             auth_token := inp.authToken
             created_at := now
             expires_at := now + SESSION_TTL_MS },
        { st with
          session := some sess
          participants := mapSet st.participants inp.participantId participant })

/-- SessionDO.handleJoin. -/
def handleJoin (st : DOState) (inp : JoinInput) :
    Except ChatError JoinSessionResponse × DOState :=
  if !(strTruthy inp.sessionPassword) then
    (.error ⟨"Session password required", .INVALID_PASSWORD, 401⟩, st)
  else
    match st.session with
    | none => (.error ⟨"Internal server error", .INTERNAL_ERROR, 500⟩, st)
    | some sess =>
      if !(verifyPassword (getStr inp.sessionPassword) sess.passwordHash) then
        (.error ⟨"Invalid session password", .INVALID_PASSWORD, 401⟩, st)
      else if ¬(1 ≤ (strTrim inp.display_name).length ∧ (strTrim inp.display_name).length ≤ 100) then
        (.error ⟨"Display name is required", .VALIDATION_ERROR, 400⟩, st)
      else if st.participants.length ≥ MAX_PARTICIPANTS then
        (.error ⟨"Session is full", .SESSION_FULL, 403⟩, st)
      else
        let sess2 := refreshSession sess inp.now
        let participant : StoredParticipant :=
          { id := inp.participantId
            displayName := strTrim inp.display_name
            joinedAt := inp.now
            lastSeen := inp.now
            isAdmin := false
            authTokenHash := some (hashPassword inp.authToken) }
        let participants2 := mapSet st.participants inp.participantId participant
        (.ok { participant_id := inp.participantId
               auth_token := inp.authToken
               participants := participants2.map (fun e => toParticipantInfo e.2) },
          { st with session := some sess2, participants := participants2 })

/-- SessionDO.handleSendMessage.  The generated message id is an input;
SendMessageRequestSchema requires a nonempty participant id and content of
length 1..50000, and the handler additionally enforces the configured cap. -/
def handleSendMessage (st : DOState) (inp : SendInput) :
    Except ChatError SendMessageResponse × DOState :=
  if !(strTruthy inp.sessionPassword) then
    (.error ⟨"Session password required", .INVALID_PASSWORD, 401⟩, st)
  else
    match st.session with
    | none => (.error ⟨"Internal server error", .INTERNAL_ERROR, 500⟩, st)
    | some sess =>
      if !(verifyPassword (getStr inp.sessionPassword) sess.passwordHash) then
        (.error ⟨"Invalid session password", .INVALID_PASSWORD, 401⟩, st)
      else if ¬(1 ≤ inp.participant_id.length ∧
          1 ≤ inp.content.length ∧ inp.content.length ≤ 50000) then
        (.error ⟨"Invalid request body", .VALIDATION_ERROR, 400⟩, st)
      else if inp.content.length > st.maxMessageLength then
        (.error ⟨"Message too long", .VALIDATION_ERROR, 400⟩, st)
      else
        match checkRateLimit st.sendLimiter inp.participant_id inp.now with
        | (.error e, lim) => (.error e, { st with sendLimiter := lim })
        | (.ok _, lim) =>
          let st1 := { st with sendLimiter := lim }
          match requireParticipantAuth st1.participants inp.participant_id inp.authToken with
          | .error e => (.error e, st1)
          | .ok participant =>
            let sess2 := refreshSession sess inp.now
            let participant2 := { participant with lastSeen := inp.now }
            let participants2 := mapSet st1.participants inp.participant_id participant2
            let message : StoredMessage := ⟨inp.msgId, inp.participant_id, inp.content, inp.now⟩
            (.ok ⟨inp.msgId, inp.now⟩,
              { st1 with
                session := some sess2
                participants := participants2
                messages := slideAppend st1.maxMessages st1.messages message
                messageIds :=
                  if (st1.messages ++ [message]).length > st1.maxMessages then
                    slideAppend st1.maxMessages st1.messageIds message.id
                  else st1.messageIds ++ [message.id] })

/-- SessionDO.handleReadMessages.  The limit query parameter is modelled
post-coercion: ReadMessagesQuerySchema bounds it to 1..MAX_MESSAGE_LIMIT
with default DEFAULT_MESSAGE_LIMIT; the after parameter is any string. -/
def handleReadMessages (st : DOState) (inp : ReadInput) :
    Except ChatError ReadMessagesResponse × DOState :=
  if !(strTruthy inp.sessionPassword) then
    (.error ⟨"Session password required", .INVALID_PASSWORD, 401⟩, st)
  else
    match st.session with
    | none => (.error ⟨"Internal server error", .INTERNAL_ERROR, 500⟩, st)
    | some sess =>
      if !(verifyPassword (getStr inp.sessionPassword) sess.passwordHash) then
        (.error ⟨"Invalid session password", .INVALID_PASSWORD, 401⟩, st)
      else if ¬(1 ≤ inp.participant_id.length ∧ validLimitParam inp.limitParam = true) then
        (.error ⟨"Invalid query", .VALIDATION_ERROR, 400⟩, st)
      else
        let limit := inp.limitParam.getD DEFAULT_MESSAGE_LIMIT
        match checkRateLimit st.readLimiter inp.participant_id inp.now with
        | (.error e, lim) => (.error e, { st with readLimiter := lim })
        | (.ok _, lim) =>
          let st1 := { st with readLimiter := lim }
          match requireParticipantAuth st1.participants inp.participant_id inp.authToken with
          | .error e => (.error e, st1)
          | .ok participant =>
            let sess2 := refreshSession sess inp.now
            let participant2 := { participant with lastSeen := inp.now }
            let participants2 := mapSet st1.participants inp.participant_id participant2
            let cursor := resolveCursor st1.readCursors inp.participant_id inp.after
            let startIndex := cursorStart st1.messages cursor
            let returnMessages := (sliceAfter st1.messages startIndex limit).1
            let hasMore := (sliceAfter st1.messages startIndex limit).2
            let lastMessage := returnMessages.getLast?
            let cursors2 :=
              match lastMessage with
              | some m => mapSet st1.readCursors inp.participant_id m.id
              | none => st1.readCursors
            (.ok { messages := returnMessages.map (fun m => toMessageInfo m participants2)
                   next_cursor := lastMessage.map (fun m => m.id)
                   has_more := hasMore },
              { st1 with
                session := some sess2
                participants := participants2
                readCursors := cursors2 })

/-- SessionDO.handleListParticipants. -/
def handleListParticipants (st : DOState) (inp : SimpleInput) :
    Except ChatError ListParticipantsResponse × DOState :=
  if !(strTruthy inp.sessionPassword) then
    (.error ⟨"Session password required", .INVALID_PASSWORD, 401⟩, st)
  else
    match st.session with
    | none => (.error ⟨"Internal server error", .INTERNAL_ERROR, 500⟩, st)
    | some sess =>
      if !(verifyPassword (getStr inp.sessionPassword) sess.passwordHash) then
        (.error ⟨"Invalid session password", .INVALID_PASSWORD, 401⟩, st)
      else
        (.ok { participants := st.participants.map (fun e => toParticipantInfo e.2) },
          { st with session := some (refreshSession sess inp.now) })

/-- SessionDO.handleGetSessionInfo; the expiry reported is the one refreshed
by this very call. -/
def handleGetSessionInfo (st : DOState) (inp : SimpleInput) :
    Except ChatError SessionInfoResponse × DOState :=
  if !(strTruthy inp.sessionPassword) then
    (.error ⟨"Session password required", .INVALID_PASSWORD, 401⟩, st)
  else
    match st.session with
    | none => (.error ⟨"Internal server error", .INTERNAL_ERROR, 500⟩, st)
    | some sess =>
      if !(verifyPassword (getStr inp.sessionPassword) sess.passwordHash) then
        (.error ⟨"Invalid session password", .INVALID_PASSWORD, 401⟩, st)
      else
        let sess2 := refreshSession sess inp.now
        (.ok { session_id := sess2.id
               created_at := sess2.createdAt
               expires_at := sess2.expiresAt
               participant_count := st.participants.length
               message_count := st.messages.length
               is_ended := sess2.ended },
          { st with session := some sess2 })

/-- SessionDO.handleRemoveParticipant.  The admin password option is the
header if present, else the body field; RemoveParticipantRequestSchema
rejects an empty-string admin password as a validation error. -/
def handleRemoveParticipant (st : DOState) (inp : RemoveInput) :
    Except ChatError Unit × DOState :=
  if !(strTruthy inp.sessionPassword) then
    (.error ⟨"Session password required", .INVALID_PASSWORD, 401⟩, st)
  else
    match st.session with
    | none => (.error ⟨"Internal server error", .INTERNAL_ERROR, 500⟩, st)
    | some sess =>
      if !(verifyPassword (getStr inp.sessionPassword) sess.passwordHash) then
        (.error ⟨"Invalid session password", .INVALID_PASSWORD, 401⟩, st)
      else if ¬(validOptPassword inp.adminPassword = true) then
        (.error ⟨"Invalid request body", .VALIDATION_ERROR, 400⟩, st)
      else
        match mapGet st.participants inp.targetId with
        | none => (.error ⟨"Participant not found", .PARTICIPANT_NOT_FOUND, 404⟩, st)
        | some _ =>
          match requireRequester st.participants inp.authToken with
          | .error e => (.error e, st)
          | .ok requester =>
            let isSelfRemoval := requester.id == inp.targetId
            if !isSelfRemoval && !requester.isAdmin then
              (.error ⟨"Admin required to remove other participants", .ADMIN_REQUIRED, 403⟩, st)
            else if !isSelfRemoval && !(strTruthy inp.adminPassword) then
              (.error ⟨"Admin password required to remove other participants",
                .ADMIN_REQUIRED, 403⟩, st)
            else if !isSelfRemoval &&
                !(verifyPassword (getStr inp.adminPassword) sess.adminPasswordHash) then
              (.error ⟨"Invalid admin password", .ADMIN_REQUIRED, 403⟩, st)
            else
              (.ok (),
                { st with
                  participants := mapDelete st.participants inp.targetId
                  readCursors := mapDelete st.readCursors inp.targetId
                  session := some (refreshSession sess inp.now) })

/-- SessionDO.handleEndSession. -/
def handleEndSession (st : DOState) (inp : EndInput) :
    Except ChatError Unit × DOState :=
  if !(strTruthy inp.adminPassword) then
    (.error ⟨"Admin password required", .ADMIN_REQUIRED, 403⟩, st)
  else
    match st.session with
    | none => (.error ⟨"Internal server error", .INTERNAL_ERROR, 500⟩, st)
    | some sess =>
      if !(verifyPassword (getStr inp.adminPassword) sess.adminPasswordHash) then
        (.error ⟨"Invalid admin password", .ADMIN_REQUIRED, 403⟩, st)
      else
        (.ok (), { st with session := some { sess with ended := true } })

/-! ### The expiry alarm (SessionDO.alarm) -/

/-- The two possible storage effects of one alarm firing. -/
inductive AlarmEffect where
  | purgeAll
  | rearm (t : Nat)
  deriving Repr, DecidableEq

/-- SessionDO.alarm: purge all storage when no session record exists or the
session is ended or past its expiry; otherwise re-arm the alarm one minute
after the expiry and change nothing else. -/
def alarmHandler (session : Option StoredSession) (now : Nat) : AlarmEffect :=
  match session with
  | none => .purgeAll
  | some s =>
    let isExpired := decide (now > s.expiresAt)
    let isEnded := s.ended
    if isExpired || isEnded then .purgeAll
    else .rearm (s.expiresAt + 60000)

/-! ### The fetch dispatcher (SessionDO.fetch) -/

inductive OkResp where
  | created (r : CreateSessionResponse)
  | joined (r : JoinSessionResponse)
  | sent (r : SendMessageResponse)
  | got (r : ReadMessagesResponse)
  | listed (r : ListParticipantsResponse)
  | info (r : SessionInfoResponse)
  | removed
  | sessionEnded
  | routeNotFound
  deriving Repr, DecidableEq

/-- One request as the dispatcher sees it: the route plus its inputs and the
client IP used for rate limiting. -/
inductive Op where
  | create (ip : String) (inp : CreateInput)
  | join (ip : String) (inp : JoinInput)
  | send (ip : String) (inp : SendInput)
  | read (ip : String) (inp : ReadInput)
  | listParticipants (ip : String) (inp : SimpleInput)
  | sessionInfo (ip : String) (inp : SimpleInput)
  | removeParticipant (ip : String) (inp : RemoveInput)
  | endSession (ip : String) (inp : EndInput)
  | unknownPath (ip : String) (now : Nat)
  deriving Repr, DecidableEq

def Op.ip : Op → String
  | .create ip _ => ip
  | .join ip _ => ip
  | .send ip _ => ip
  | .read ip _ => ip
  | .listParticipants ip _ => ip
  | .sessionInfo ip _ => ip
  | .removeParticipant ip _ => ip
  | .endSession ip _ => ip
  | .unknownPath ip _ => ip

def Op.now : Op → Nat
  | .create _ inp => inp.now
  | .join _ inp => inp.now
  | .send _ inp => inp.now
  | .read _ inp => inp.now
  | .listParticipants _ inp => inp.now
  | .sessionInfo _ inp => inp.now
  | .removeParticipant _ inp => inp.now
  | .endSession _ inp => inp.now
  | .unknownPath _ now => now

def Op.isCreate : Op → Bool
  | .create _ _ => true
  | _ => false

/-- The guard of SessionDO.fetch for non-create routes: a missing, expired or
ended session is reported as SESSION_NOT_FOUND. -/
def guardSession (st : DOState) (now : Nat) : Except ChatError StoredSession :=
  match st.session with
  | none => .error ⟨"Session not found", .SESSION_NOT_FOUND, 404⟩
  | some sess =>
    if decide (now > sess.expiresAt) || sess.ended then
      .error ⟨"Session not found", .SESSION_NOT_FOUND, 404⟩
    else .ok sess

def packResp {α : Type} (f : α → OkResp) (r : Except ChatError α × DOState) :
    Except ChatError OkResp × DOState :=
  (r.1.map f, r.2)

/-- SessionDO.fetch: apply the general per-IP rate limit, dispatch create
unconditionally, and guard every other route behind an active session (join
additionally passes the join limiter). -/
def fetchStep (st0 : DOState) (op : Op) : Except ChatError OkResp × DOState :=
  match checkRateLimit st0.generalLimiter op.ip op.now with
  | (.error e, gl) => (.error e, { st0 with generalLimiter := gl })
  | (.ok _, gl) =>
    let st := { st0 with generalLimiter := gl }
    match op with
    | .create _ inp => packResp OkResp.created (handleCreate st inp)
    | .join ip inp =>
      match guardSession st inp.now with
      | .error e => (.error e, st)
      | .ok _ =>
        match checkRateLimit st.joinLimiter ip inp.now with
        | (.error e, jl) => (.error e, { st with joinLimiter := jl })
        | (.ok _, jl) =>
          packResp OkResp.joined (handleJoin { st with joinLimiter := jl } inp)
    | .send _ inp =>
      match guardSession st inp.now with
      | .error e => (.error e, st)
      | .ok _ => packResp OkResp.sent (handleSendMessage st inp)
    | .read _ inp =>
      match guardSession st inp.now with
      | .error e => (.error e, st)
      | .ok _ => packResp OkResp.got (handleReadMessages st inp)
    | .listParticipants _ inp =>
      match guardSession st inp.now with
      | .error e => (.error e, st)
      | .ok _ => packResp OkResp.listed (handleListParticipants st inp)
    | .sessionInfo _ inp =>
      match guardSession st inp.now with
      | .error e => (.error e, st)
      | .ok _ => packResp OkResp.info (handleGetSessionInfo st inp)
    | .removeParticipant _ inp =>
      match guardSession st inp.now with
      | .error e => (.error e, st)
      | .ok _ => packResp (fun _ => OkResp.removed) (handleRemoveParticipant st inp)
    | .endSession _ inp =>
      match guardSession st inp.now with
      | .error e => (.error e, st)
      | .ok _ => packResp (fun _ => OkResp.sessionEnded) (handleEndSession st inp)
    | .unknownPath _ now =>
      match guardSession st now with
      | .error e => (.error e, st)
      | .ok _ => (.ok .routeNotFound, st)

/-- Run a sequence of requests against one instance. -/
def runOps (st : DOState) (ops : List Op) : DOState :=
  ops.foldl (fun s op => (fetchStep s op).2) st

/-- States an instance can be in: a fresh instance, or the successor state of
any request.  The alarm does not change the in-memory state (deleteAll acts
on storage only), so it contributes no step. -/
inductive Reachable : DOState → Prop where
  | init (maxMessages maxMessageLength : Nat) :
      Reachable (initialState maxMessages maxMessageLength)
  | step {st : DOState} (op : Op) : Reachable st → Reachable (fetchStep st op).2

/-- The error code and HTTP status of a handler result, none on success. -/
def errInfo {α : Type} (r : Except ChatError α × DOState) : Option (ErrorCode × Nat) :=
  match r.1 with
  | .error e => some (e.code, e.httpStatus)
  | .ok _ => none

/-! ### Lemmas about the map and list helpers -/

theorem mapGet_mapSet_self {α : Type} (m : List (String × α)) (k : String) (v : α) :
    mapGet (mapSet m k v) k = some v := by
  induction m with
  | nil => simp [mapSet, mapGet]
  | cons e t ih =>
    obtain ⟨ek, ev⟩ := e
    by_cases he : ek = k
    · subst he
      simp [mapSet, mapGet]
    · have heb : (ek == k) = false := by simp [he]
      by_cases ht : (t.any fun e => e.1 == k) = true
      · have h1 : mapSet ((ek, ev) :: t) k v
            = (ek, ev) :: t.map (fun e => if e.1 == k then (k, v) else e) := by
          simp [mapSet, List.any_cons, ht, heb, he]
        have ih' : mapGet (t.map (fun e => if e.1 == k then (k, v) else e)) k = some v := by
          simpa [mapSet, ht] using ih
        rw [h1]
        simpa [mapGet, List.find?, heb] using ih'
      · have hanb : (t.any fun e => e.1 == k) = false := Bool.eq_false_iff.mpr ht
        have h1 : mapSet ((ek, ev) :: t) k v = (ek, ev) :: (t ++ [(k, v)]) := by
          simp [mapSet, List.any_cons, hanb, heb, he]
        have ih' : mapGet (t ++ [(k, v)]) k = some v := by
          simpa [mapSet, hanb] using ih
        rw [h1]
        simpa [mapGet, List.find?, heb] using ih'

theorem mapGet_mapDelete_self {α : Type} (m : List (String × α)) (k : String) :
    mapGet (mapDelete m k) k = none := by
  induction m with
  | nil => simp [mapDelete, mapGet]
  | cons e t ih =>
    by_cases he : (e.1 == k) = true
    · simpa [mapDelete, mapGet, he] using ih
    · simpa [mapDelete, mapGet, he] using ih

theorem mapSet_length_le {α : Type} (m : List (String × α)) (k : String) (v : α) :
    (mapSet m k v).length ≤ m.length + 1 := by
  unfold mapSet
  split <;> simp

theorem mapDelete_length_le {α : Type} (m : List (String × α)) (k : String) :
    (mapDelete m k).length ≤ m.length := by
  simpa [mapDelete] using List.length_filter_le _ m

theorem listFindIndex_eq_none {α : Type} (p : α → Bool) (l : List α)
    (h : ∀ a ∈ l, p a = false) : listFindIndex p l = none := by
  induction l with
  | nil => rfl
  | cons a t ih =>
    have ha := h a (by simp)
    simp [listFindIndex, ha, ih (fun x hx => h x (by simp [hx]))]

theorem listFindIndex_nodup_get (l : List StoredMessage)
    (hnd : (l.map (fun m => m.id)).Nodup) (i : Nat) (h : i < l.length) :
    listFindIndex (fun m => m.id == l[i].id) l = some i := by
  induction l generalizing i with
  | nil => simp at h
  | cons a t ih =>
    cases i with
    | zero => simp [listFindIndex]
    | succ j =>
      have hj : j < t.length := by simpa using h
      have hmem : t[j] ∈ t := List.getElem_mem hj
      have hnotin : a.id ∉ t.map (fun m => m.id) := (List.nodup_cons.mp hnd).1
      have hane : (a.id == t[j].id) = false := by
        rw [beq_eq_false_iff_ne]
        intro hcontra
        exact hnotin (hcontra ▸ List.mem_map_of_mem (fun m => m.id) hmem)
      have hgetc : (a :: t)[j + 1] = t[j] := by simp
      rw [hgetc]
      simp only [listFindIndex, hane,
        ih (List.nodup_cons.mp hnd).2 j hj, Option.map_some]
      simp

theorem listFindIndex_lt_length {α : Type} (p : α → Bool) (l : List α) (i : Nat)
    (h : listFindIndex p l = some i) : i < l.length := by
  induction l generalizing i with
  | nil => simp [listFindIndex] at h
  | cons a t ih =>
    simp only [listFindIndex] at h
    split at h
    · injection h with h0
      simp [← h0]
    · cases hfi : listFindIndex p t with
      | none => simp [hfi] at h
      | some j =>
        simp only [hfi, Option.map_some] at h
        injection h with h0
        have h1 : j + 1 = i := by simpa using h0
        have := ih j hfi
        simp only [List.length_cons]
        omega

/-! ### Lemmas about the read-page and sliding-window computations -/

theorem sliceAfter_fst (l : List StoredMessage) (s k : Nat) :
    (sliceAfter l s k).1 = (l.drop s).take k := by
  unfold sliceAfter
  simp only [decide_eq_true_eq]
  by_cases h : ((l.drop s).take (k + 1)).length > k
  · rw [if_pos h, List.take_take]
    congr 1
    omega
  · have ht := List.length_take (k + 1) (l.drop s)
    have hlen : (l.drop s).length ≤ k := by
      by_contra hc
      apply h
      rw [ht]
      omega
    rw [if_neg h, List.take_of_length_le hlen,
      List.take_of_length_le (le_trans hlen (Nat.le_succ k))]

theorem sliceAfter_snd (l : List StoredMessage) (s k : Nat) :
    (sliceAfter l s k).2 = decide (k < (l.drop s).length) := by
  unfold sliceAfter
  simp only [List.length_take]
  congr 1
  rw [eq_iff_iff]
  omega

theorem sliceAfter_fst_of_no_more (l : List StoredMessage) (s k : Nat)
    (h : (sliceAfter l s k).2 = false) : (sliceAfter l s k).1 = l.drop s := by
  have h2 : (l.drop s).length ≤ k := by
    have := sliceAfter_snd l s k
    rw [h] at this
    have hd := of_decide_eq_false this.symm
    omega
  rw [sliceAfter_fst]
  exact List.take_of_length_le h2

theorem cursorStart_of_no_match (l : List StoredMessage) (c : Option String)
    (h : ∀ m ∈ l, (m.id == getStr c) = false) : cursorStart l c = 0 := by
  unfold cursorStart
  split
  · rw [listFindIndex_eq_none _ _ h]
  · rfl

theorem cursorStart_get (l : List StoredMessage)
    (hnd : (l.map (fun m => m.id)).Nodup) (i : Nat) (h : i < l.length)
    (hne : l[i].id ≠ "") :
    cursorStart l (some l[i].id) = i + 1 := by
  have ht : strTruthy (some l[i].id) = true := by
    simp [strTruthy, hne]
  unfold cursorStart
  rw [if_pos ht]
  have hg : getStr (some l[i].id) = l[i].id := rfl
  rw [hg, listFindIndex_nodup_get l hnd i h]

theorem cursorStart_le_length (l : List StoredMessage) (c : Option String) :
    cursorStart l c ≤ l.length := by
  unfold cursorStart
  split
  · split
    · next i hi => exact listFindIndex_lt_length _ _ _ hi
    · exact Nat.zero_le _
  · exact Nat.zero_le _

theorem foldl_slideAppend {α : Type} (maxLen : Nat) (hm : 0 < maxLen) (xs : List α) :
    List.foldl (slideAppend maxLen) [] xs = xs.drop (xs.length - maxLen) := by
  induction xs using List.reverseRecOn with
  | nil => simp
  | append_singleton l a ih =>
    rw [List.foldl_append, List.foldl_cons, List.foldl_nil, ih]
    by_cases hk : l.length < maxLen
    · have h0 : l.length - maxLen = 0 := by omega
      rw [h0, List.drop_zero]
      unfold slideAppend
      have hc : ¬ (l ++ [a]).length > maxLen := by
        simp only [List.length_append, List.length_cons, List.length_nil]
        omega
      simp only [hc, if_false]
      have h1 : (l ++ [a]).length - maxLen = 0 := by
        simp only [List.length_append, List.length_cons, List.length_nil]
        omega
      rw [h1, List.drop_zero]
    · push_neg at hk
      unfold slideAppend
      have hlenD : (l.drop (l.length - maxLen)).length = maxLen := by
        rw [List.length_drop]
        omega
      have hgt : ((l.drop (l.length - maxLen)) ++ [a]).length > maxLen := by
        rw [List.length_append, hlenD]
        simp
      rw [if_pos hgt]
      have e1 : ((l.drop (l.length - maxLen)) ++ [a]).length - maxLen = 1 := by
        rw [List.length_append, hlenD]
        simp
      rw [e1]
      have lhs_eq : ((l.drop (l.length - maxLen)) ++ [a]).drop 1
          = l.drop (l.length + 1 - maxLen) ++ [a] := by
        rw [List.drop_append_eq_append_drop, hlenD]
        have h10 : (1 : Nat) - maxLen = 0 := by omega
        rw [h10, List.drop_zero, List.drop_drop]
        have h11 : l.length - maxLen + 1 = l.length + 1 - maxLen := by omega
        rw [h11]
      rw [lhs_eq]
      have e2 : (l ++ [a]).length - maxLen = l.length + 1 - maxLen := by
        simp only [List.length_append, List.length_cons, List.length_nil]
      rw [e2, List.drop_append_eq_append_drop]
      have h20 : l.length + 1 - maxLen - l.length = 0 := by omega
      rw [h20, List.drop_zero]

/-! ### Rate limiter lemmas -/

theorem filter_idem {α : Type} (p : α → Bool) (l : List α) :
    (l.filter p).filter p = l.filter p := by
  rw [List.filter_filter]
  congr 1
  funext a
  rw [Bool.and_self]

/-- Below capacity, the check allows the request and records one more event
under the key (visible at the same instant, for a positive window). -/
theorem checkRateLimit_records (rl : RateLimiter) (key : String) (now : Nat)
    (hw : 0 < rl.config.windowMs)
    (h : rl.countInWindow key now < rl.config.maxRequests) :
    (checkRateLimit rl key now).1 = .ok () ∧
    ((checkRateLimit rl key now).2).countInWindow key now
      = rl.countInWindow key now + 1 ∧
    ((checkRateLimit rl key now).2).config = rl.config := by
  unfold RateLimiter.countInWindow at h
  have hck : checkRateLimit rl key now
      = (.ok (), ⟨mapSet rl.requests key
          ((((mapGet rl.requests key).getD []).filter
            (fun t => decide (((t : Nat) : Int)
              > (now : Int) - (rl.config.windowMs : Int)))) ++ [now]),
          rl.config⟩) := by
    simp only [checkRateLimit, RateLimiter.check]
    rw [if_neg (Nat.not_le.mpr h)]
    rfl
  refine ⟨by rw [hck], ?_, by rw [hck]⟩
  rw [hck]
  simp only [RateLimiter.countInWindow]
  rw [mapGet_mapSet_self]
  simp only [Option.getD_some]
  rw [List.filter_append, filter_idem]
  have hnow2 : ((now : Int) - (rl.config.windowMs : Int) < (now : Int)) := by omega
  simp [List.filter, hnow2]

/-- At or above capacity, the check rejects with RATE_LIMITED 429. -/
theorem checkRateLimit_denies (rl : RateLimiter) (key : String) (now : Nat)
    (h : rl.config.maxRequests ≤ rl.countInWindow key now) :
    (checkRateLimit rl key now).1
      = .error ⟨"Rate limit exceeded. Try again later.", .RATE_LIMITED, 429⟩ := by
  unfold RateLimiter.countInWindow at h
  simp only [checkRateLimit, RateLimiter.check]
  rw [if_pos h]
  rfl

/-! ### Success and failure characterizations of send and read -/

/-- On the success path, handleSendMessage returns the message id and
timestamp and appends the message through the sliding window. -/
theorem handleSendMessage_ok_spec (st : DOState) (inp : SendInput)
    (sess : StoredSession) (lim : RateLimiter) (participant : StoredParticipant)
    (hs : st.session = some sess)
    (hpw : strTruthy inp.sessionPassword = true)
    (hv : verifyPassword (getStr inp.sessionPassword) sess.passwordHash = true)
    (hval1 : 1 ≤ inp.participant_id.length)
    (hval2 : 1 ≤ inp.content.length)
    (hval3 : inp.content.length ≤ 50000)
    (hmax : inp.content.length ≤ st.maxMessageLength)
    (hrl : checkRateLimit st.sendLimiter inp.participant_id inp.now = (.ok (), lim))
    (hauth : requireParticipantAuth st.participants inp.participant_id inp.authToken
      = .ok participant) :
    handleSendMessage st inp =
      (.ok ⟨inp.msgId, inp.now⟩,
        { st with
          sendLimiter := lim
          session := some (refreshSession sess inp.now)
          participants := mapSet st.participants inp.participant_id
            { participant with lastSeen := inp.now }
          messages := slideAppend st.maxMessages st.messages
            ⟨inp.msgId, inp.participant_id, inp.content, inp.now⟩
          messageIds :=
            if (st.messages ++ [(⟨inp.msgId, inp.participant_id, inp.content, inp.now⟩
                : StoredMessage)]).length > st.maxMessages then
              slideAppend st.maxMessages st.messageIds inp.msgId
            else st.messageIds ++ [inp.msgId] }) := by
  have hmax' : ¬(inp.content.length > st.maxMessageLength) := by omega
  unfold handleSendMessage
  simp only [hs, hpw, hv, hrl, hauth, Bool.not_true, Bool.false_eq_true, if_false,
    hval1, hval2, hval3, hmax', not_true, not_false_eq_true, and_true, true_and,
    not_not_intro (And.intro hval1 (And.intro hval2 hval3)), if_true]

/-- When the auth token check fails after the rate limiter allowed, the send
fails with that auth error but keeps the updated limiter state. -/
theorem handleSendMessage_auth_fail (st : DOState) (inp : SendInput)
    (sess : StoredSession) (lim : RateLimiter) (e : ChatError)
    (hs : st.session = some sess)
    (hpw : strTruthy inp.sessionPassword = true)
    (hv : verifyPassword (getStr inp.sessionPassword) sess.passwordHash = true)
    (hval1 : 1 ≤ inp.participant_id.length)
    (hval2 : 1 ≤ inp.content.length)
    (hval3 : inp.content.length ≤ 50000)
    (hmax : inp.content.length ≤ st.maxMessageLength)
    (hrl : checkRateLimit st.sendLimiter inp.participant_id inp.now = (.ok (), lim))
    (hauth : requireParticipantAuth st.participants inp.participant_id inp.authToken
      = .error e) :
    handleSendMessage st inp = (.error e, { st with sendLimiter := lim }) := by
  have hmax' : ¬(inp.content.length > st.maxMessageLength) := by omega
  unfold handleSendMessage
  simp only [hs, hpw, hv, hrl, hauth, Bool.not_true, Bool.false_eq_true, if_false,
    hval1, hval2, hval3, hmax', not_true, not_false_eq_true, and_true, true_and,
    not_not_intro (And.intro hval1 (And.intro hval2 hval3)), if_true]

/-- When the rate limiter rejects, the send fails with that error (before any
token is checked) but keeps the updated limiter state. -/
theorem handleSendMessage_rl_fail (st : DOState) (inp : SendInput)
    (sess : StoredSession) (lim : RateLimiter) (e : ChatError)
    (hs : st.session = some sess)
    (hpw : strTruthy inp.sessionPassword = true)
    (hv : verifyPassword (getStr inp.sessionPassword) sess.passwordHash = true)
    (hval1 : 1 ≤ inp.participant_id.length)
    (hval2 : 1 ≤ inp.content.length)
    (hval3 : inp.content.length ≤ 50000)
    (hmax : inp.content.length ≤ st.maxMessageLength)
    (hrl : checkRateLimit st.sendLimiter inp.participant_id inp.now = (.error e, lim)) :
    handleSendMessage st inp = (.error e, { st with sendLimiter := lim }) := by
  have hmax' : ¬(inp.content.length > st.maxMessageLength) := by omega
  unfold handleSendMessage
  simp only [hs, hpw, hv, hrl, Bool.not_true, Bool.false_eq_true, if_false,
    hval1, hval2, hval3, hmax', not_true, not_false_eq_true, and_true, true_and,
    not_not_intro (And.intro hval1 (And.intro hval2 hval3)), if_true]

/-- On the success path, handleReadMessages pages messages after the
resolved cursor, advances the stored cursor to the last returned id, and
keeps the recorded rate-limit event. -/
theorem handleReadMessages_ok_spec (st : DOState) (inp : ReadInput)
    (sess : StoredSession) (lim : RateLimiter) (participant : StoredParticipant)
    (hs : st.session = some sess)
    (hpw : strTruthy inp.sessionPassword = true)
    (hv : verifyPassword (getStr inp.sessionPassword) sess.passwordHash = true)
    (hpid : 1 ≤ inp.participant_id.length)
    (hlimp : validLimitParam inp.limitParam = true)
    (hrl : checkRateLimit st.readLimiter inp.participant_id inp.now = (.ok (), lim))
    (hauth : requireParticipantAuth st.participants inp.participant_id inp.authToken
      = .ok participant) :
    handleReadMessages st inp =
      (.ok { messages :=
              (sliceAfter st.messages
                (cursorStart st.messages
                  (resolveCursor st.readCursors inp.participant_id inp.after))
                (inp.limitParam.getD DEFAULT_MESSAGE_LIMIT)).1.map
                (fun m => toMessageInfo m (mapSet st.participants inp.participant_id
                  { participant with lastSeen := inp.now }))
             next_cursor :=
              ((sliceAfter st.messages
                (cursorStart st.messages
                  (resolveCursor st.readCursors inp.participant_id inp.after))
                (inp.limitParam.getD DEFAULT_MESSAGE_LIMIT)).1.getLast?).map
                (fun m => m.id)
             has_more :=
              (sliceAfter st.messages
                (cursorStart st.messages
                  (resolveCursor st.readCursors inp.participant_id inp.after))
                (inp.limitParam.getD DEFAULT_MESSAGE_LIMIT)).2 },
        { st with
          readLimiter := lim
          session := some (refreshSession sess inp.now)
          participants := mapSet st.participants inp.participant_id
            { participant with lastSeen := inp.now }
          readCursors :=
            match (sliceAfter st.messages
                (cursorStart st.messages
                  (resolveCursor st.readCursors inp.participant_id inp.after))
                (inp.limitParam.getD DEFAULT_MESSAGE_LIMIT)).1.getLast? with
            | some m => mapSet st.readCursors inp.participant_id m.id
            | none => st.readCursors }) := by
  unfold handleReadMessages
  simp only [hs, hpw, hv, hrl, hauth, Bool.not_true, Bool.false_eq_true, if_false,
    hpid, hlimp, not_true, not_false_eq_true, and_true, true_and,
    not_not_intro (And.intro hpid hlimp), if_true]

/-- When the auth token check fails after the rate limiter allowed, the read
fails with that auth error but keeps the updated limiter state. -/
theorem handleReadMessages_auth_fail (st : DOState) (inp : ReadInput)
    (sess : StoredSession) (lim : RateLimiter) (e : ChatError)
    (hs : st.session = some sess)
    (hpw : strTruthy inp.sessionPassword = true)
    (hv : verifyPassword (getStr inp.sessionPassword) sess.passwordHash = true)
    (hpid : 1 ≤ inp.participant_id.length)
    (hlimp : validLimitParam inp.limitParam = true)
    (hrl : checkRateLimit st.readLimiter inp.participant_id inp.now = (.ok (), lim))
    (hauth : requireParticipantAuth st.participants inp.participant_id inp.authToken
      = .error e) :
    handleReadMessages st inp = (.error e, { st with readLimiter := lim }) := by
  unfold handleReadMessages
  simp only [hs, hpw, hv, hrl, hauth, Bool.not_true, Bool.false_eq_true, if_false,
    hpid, hlimp, not_true, not_false_eq_true, and_true, true_and,
    not_not_intro (And.intro hpid hlimp), if_true]

/-- When the rate limiter rejects, the read fails with that error (before any
token is checked) but keeps the updated limiter state. -/
theorem handleReadMessages_rl_fail (st : DOState) (inp : ReadInput)
    (sess : StoredSession) (lim : RateLimiter) (e : ChatError)
    (hs : st.session = some sess)
    (hpw : strTruthy inp.sessionPassword = true)
    (hv : verifyPassword (getStr inp.sessionPassword) sess.passwordHash = true)
    (hpid : 1 ≤ inp.participant_id.length)
    (hlimp : validLimitParam inp.limitParam = true)
    (hrl : checkRateLimit st.readLimiter inp.participant_id inp.now = (.error e, lim)) :
    handleReadMessages st inp = (.error e, { st with readLimiter := lim }) := by
  unfold handleReadMessages
  simp only [hs, hpw, hv, hrl, Bool.not_true, Bool.false_eq_true, if_false,
    hpid, hlimp, not_true, not_false_eq_true, and_true, true_and,
    not_not_intro (And.intro hpid hlimp), if_true]

/-! ### Concrete sample data used by witnesses and counterexamples -/

/-- A session record as handleCreate builds it (password spw, admin password
apw, creator p1, created at 100 with the 7-day TTL). -/
def sampleSession : StoredSession :=
  { id := "s1"
    passwordHash := hashPassword "spw"
    adminPasswordHash := hashPassword "apw"
    createdAt := 100
    createdBy := "p1"
    expiresAt := 100 + SESSION_TTL_MS
    lastActivity := 100
    ended := false }

/-- create(display_name Alice) against a fresh instance, with generated
secrets spw / apw / tok1 and ids s1 / p1, at time 100. -/
def wCreateInp : CreateInput :=
  { display_name := "Alice", sessionId := "s1", sessionPassword := "spw",
    adminPassword := "apw", participantId := "p1", authToken := "tok1", now := 100 }

def wSt1 : DOState := (handleCreate (initialState 1000 50000) wCreateInp).2

/-- join(display_name Bob) with the correct session password at time 200. -/
def wJoinInp : JoinInput :=
  { sessionPassword := some "spw", display_name := "Bob", participantId := "p2",
    authToken := "tok2", now := 200 }

/-- The two-participant session state used by witnesses: Alice (admin, p1)
and Bob (p2). -/
def wSt2 : DOState := (handleJoin wSt1 wJoinInp).2

/-- The session record inside wSt2 (activity refreshed by the join). -/
def wSess2 : StoredSession :=
  { id := "s1"
    passwordHash := hashPassword "spw"
    adminPasswordHash := hashPassword "apw"
    createdAt := 100
    createdBy := "p1"
    expiresAt := 200 + SESSION_TTL_MS
    lastActivity := 200
    ended := false }

/-- wSt2 with both per-participant limiters already at capacity for p1 in
the minute around time 300. -/
def wStFull : DOState :=
  { wSt2 with
    sendLimiter := ⟨[("p1", List.replicate 60 250)], RATE_LIMITS_MESSAGE_SEND⟩
    readLimiter := ⟨[("p1", List.replicate 120 250)], RATE_LIMITS_MESSAGE_READ⟩ }

/-- C8: on every firing of the expiry alarm exactly one of two things
happens: if there is no session record, or the session is ended, or now is
past expiresAt, all storage for the session is purged; otherwise the alarm
is re-armed for expiresAt plus the one-minute grace buffer and nothing else
is done; the handler never ends without doing one of the two. -/
theorem alarm_fire_purges_or_rearms (session : Option StoredSession) (now : Nat) :
    ((session = none ∨ ∃ s, session = some s ∧ (s.ended = true ∨ now > s.expiresAt)) →
      alarmHandler session now = .purgeAll) ∧
    (∀ s, session = some s → s.ended = false → now ≤ s.expiresAt →
      alarmHandler session now = .rearm (s.expiresAt + 60000)) ∧
    (alarmHandler session now = .purgeAll ∨ ∃ t, alarmHandler session now = .rearm t) := by
  refine ⟨?_, ?_, ?_⟩
  · rintro (rfl | ⟨s, rfl, hcase⟩)
    · rfl
    · rcases hcase with he | hx
      · simp [alarmHandler, he]
      · simp [alarmHandler, hx]
  · rintro s rfl he hx
    have hd : ¬(now > s.expiresAt) := by omega
    simp [alarmHandler, he, hd]
  · cases session with
    | none => exact Or.inl rfl
    | some s =>
      by_cases hb : (decide (now > s.expiresAt) || s.ended) = true
      · exact Or.inl (by simp [alarmHandler, hb])
      · exact Or.inr ⟨s.expiresAt + 60000, by
          have hb2 := Bool.eq_false_iff.mpr hb
          simp [alarmHandler, hb2]⟩

/-- Witness for C8 at concrete inputs: an active unexpired session is
re-armed, a missing record is purged. -/
theorem alarm_fire_purges_or_rearms_witness :
    alarmHandler (some sampleSession) 5 = .rearm (sampleSession.expiresAt + 60000) ∧
    alarmHandler none 5 = .purgeAll :=
  ⟨(alarm_fire_purges_or_rearms (some sampleSession) 5).2.1 sampleSession rfl rfl
      (by decide),
    (alarm_fire_purges_or_rearms none 5).1 (Or.inl rfl)⟩

/-- C10: for sendMessage and readMessages the per-participant rate-limit
check runs, and records its event under the request's participant_id,
before the auth token is verified, and the event is not rolled back when
authentication fails: a request with a valid session password but a failing
token check still consumes one unit of the named participant's quota, and
once the window is full the request is refused with RATE_LIMITED 429
regardless of the auth token, so repeated failed requests can drive the
genuine participant into RATE_LIMITED. -/
theorem rate_limit_consumed_before_auth (st : DOState) (sess : StoredSession)
    (hs : st.session = some sess) (sinp : SendInput) (rinp : ReadInput) :
    (∀ e : ChatError, strTruthy sinp.sessionPassword = true →
      verifyPassword (getStr sinp.sessionPassword) sess.passwordHash = true →
      1 ≤ sinp.participant_id.length → 1 ≤ sinp.content.length →
      sinp.content.length ≤ 50000 → sinp.content.length ≤ st.maxMessageLength →
      0 < st.sendLimiter.config.windowMs →
      st.sendLimiter.countInWindow sinp.participant_id sinp.now
        < st.sendLimiter.config.maxRequests →
      requireParticipantAuth st.participants sinp.participant_id sinp.authToken
        = .error e →
      errInfo (handleSendMessage st sinp) = some (e.code, e.httpStatus) ∧
      ((handleSendMessage st sinp).2).sendLimiter.countInWindow
          sinp.participant_id sinp.now
        = st.sendLimiter.countInWindow sinp.participant_id sinp.now + 1) ∧
    (strTruthy sinp.sessionPassword = true →
      verifyPassword (getStr sinp.sessionPassword) sess.passwordHash = true →
      1 ≤ sinp.participant_id.length → 1 ≤ sinp.content.length →
      sinp.content.length ≤ 50000 → sinp.content.length ≤ st.maxMessageLength →
      st.sendLimiter.config.maxRequests
        ≤ st.sendLimiter.countInWindow sinp.participant_id sinp.now →
      errInfo (handleSendMessage st sinp) = some (.RATE_LIMITED, 429)) ∧
    (∀ e : ChatError, strTruthy rinp.sessionPassword = true →
      verifyPassword (getStr rinp.sessionPassword) sess.passwordHash = true →
      1 ≤ rinp.participant_id.length → validLimitParam rinp.limitParam = true →
      0 < st.readLimiter.config.windowMs →
      st.readLimiter.countInWindow rinp.participant_id rinp.now
        < st.readLimiter.config.maxRequests →
      requireParticipantAuth st.participants rinp.participant_id rinp.authToken
        = .error e →
      errInfo (handleReadMessages st rinp) = some (e.code, e.httpStatus) ∧
      ((handleReadMessages st rinp).2).readLimiter.countInWindow
          rinp.participant_id rinp.now
        = st.readLimiter.countInWindow rinp.participant_id rinp.now + 1) ∧
    (strTruthy rinp.sessionPassword = true →
      verifyPassword (getStr rinp.sessionPassword) sess.passwordHash = true →
      1 ≤ rinp.participant_id.length → validLimitParam rinp.limitParam = true →
      st.readLimiter.config.maxRequests
        ≤ st.readLimiter.countInWindow rinp.participant_id rinp.now →
      errInfo (handleReadMessages st rinp) = some (.RATE_LIMITED, 429)) := by
  refine ⟨?_, ?_, ?_, ?_⟩
  · intro e hpw hv h1 h2 h3 h4 hw hcnt hauth
    obtain ⟨hc1, hc2, _⟩ := checkRateLimit_records st.sendLimiter
      sinp.participant_id sinp.now hw hcnt
    have hrl : checkRateLimit st.sendLimiter sinp.participant_id sinp.now
        = (.ok (), (checkRateLimit st.sendLimiter sinp.participant_id sinp.now).2) :=
      Prod.ext hc1 rfl
    rw [handleSendMessage_auth_fail st sinp sess
      (checkRateLimit st.sendLimiter sinp.participant_id sinp.now).2 e
      hs hpw hv h1 h2 h3 h4 hrl hauth]
    exact ⟨rfl, hc2⟩
  · intro hpw hv h1 h2 h3 h4 hcnt
    have hc1 := checkRateLimit_denies st.sendLimiter sinp.participant_id sinp.now hcnt
    have hrl : checkRateLimit st.sendLimiter sinp.participant_id sinp.now
        = (.error ⟨"Rate limit exceeded. Try again later.", .RATE_LIMITED, 429⟩,
          (checkRateLimit st.sendLimiter sinp.participant_id sinp.now).2) :=
      Prod.ext hc1 rfl
    rw [handleSendMessage_rl_fail st sinp sess
      (checkRateLimit st.sendLimiter sinp.participant_id sinp.now).2 _
      hs hpw hv h1 h2 h3 h4 hrl]
    rfl
  · intro e hpw hv h1 h2 hw hcnt hauth
    obtain ⟨hc1, hc2, _⟩ := checkRateLimit_records st.readLimiter
      rinp.participant_id rinp.now hw hcnt
    have hrl : checkRateLimit st.readLimiter rinp.participant_id rinp.now
        = (.ok (), (checkRateLimit st.readLimiter rinp.participant_id rinp.now).2) :=
      Prod.ext hc1 rfl
    rw [handleReadMessages_auth_fail st rinp sess
      (checkRateLimit st.readLimiter rinp.participant_id rinp.now).2 e
      hs hpw hv h1 h2 hrl hauth]
    exact ⟨rfl, hc2⟩
  · intro hpw hv h1 h2 hcnt
    have hc1 := checkRateLimit_denies st.readLimiter rinp.participant_id rinp.now hcnt
    have hrl : checkRateLimit st.readLimiter rinp.participant_id rinp.now
        = (.error ⟨"Rate limit exceeded. Try again later.", .RATE_LIMITED, 429⟩,
          (checkRateLimit st.readLimiter rinp.participant_id rinp.now).2) :=
      Prod.ext hc1 rfl
    rw [handleReadMessages_rl_fail st rinp sess
      (checkRateLimit st.readLimiter rinp.participant_id rinp.now).2 _
      hs hpw hv h1 h2 hrl]
    rfl

/-- Witness for C10: in the two-participant session, a send as p1 carrying
the session password but a wrong token consumes p1's send quota and fails
INVALID_PASSWORD; with p1's windows already full, send and read fail
RATE_LIMITED even though the presented token is p1's genuine one. -/
theorem rate_limit_consumed_before_auth_witness :
    (errInfo (handleSendMessage wSt2
        ⟨some "spw", some "bad", "p1", "hello", "m1", 300⟩)
      = some (.INVALID_PASSWORD, 401) ∧
     ((handleSendMessage wSt2
        ⟨some "spw", some "bad", "p1", "hello", "m1", 300⟩).2).sendLimiter.countInWindow
          "p1" 300
      = wSt2.sendLimiter.countInWindow "p1" 300 + 1) ∧
    errInfo (handleSendMessage wStFull
        ⟨some "spw", some "tok1", "p1", "hello", "m1", 300⟩)
      = some (.RATE_LIMITED, 429) ∧
    errInfo (handleReadMessages wStFull
        ⟨some "spw", some "tok1", "p1", none, none, 300⟩)
      = some (.RATE_LIMITED, 429) := by
  refine ⟨?_, ?_, ?_⟩
  · exact (rate_limit_consumed_before_auth wSt2 wSess2 (by decide)
      ⟨some "spw", some "bad", "p1", "hello", "m1", 300⟩
      ⟨some "spw", some "bad", "p1", none, none, 300⟩).1
      ⟨"Invalid participant auth token", .INVALID_PASSWORD, 401⟩
      (by decide) (by decide) (by decide) (by decide) (by decide) (by decide)
      (by decide) (by decide) (by decide)
  · exact ((rate_limit_consumed_before_auth wStFull wSess2 (by decide)
      ⟨some "spw", some "tok1", "p1", "hello", "m1", 300⟩
      ⟨some "spw", some "tok1", "p1", none, none, 300⟩).2).1
      (by decide) (by decide) (by decide) (by decide) (by decide) (by decide)
      (by decide)
  · exact (((rate_limit_consumed_before_auth wStFull wSess2 (by decide)
      ⟨some "spw", some "tok1", "p1", "hello", "m1", 300⟩
      ⟨some "spw", some "tok1", "p1", none, none, 300⟩).2).2).2
      (by decide) (by decide) (by decide) (by decide) (by decide)

/-! ### removeParticipant: requester identification and authorization -/

/-- Every error requireRequester can produce is INVALID_PASSWORD 401. -/
theorem requireRequester_error_code (participants : List (String × StoredParticipant))
    (authToken : Option String) (e : ChatError)
    (h : requireRequester participants authToken = .error e) :
    e.code = .INVALID_PASSWORD ∧ e.httpStatus = 401 := by
  unfold requireRequester at h
  split at h
  · injection h with h0
    rw [← h0]
    exact ⟨rfl, rfl⟩
  · split at h
    · exact absurd h (by simp)
    · injection h with h0
      rw [← h0]
      exact ⟨rfl, rfl⟩

/-- When the token verifies against no stored digest, requireRequester fails
with INVALID_PASSWORD 401. -/
theorem requireRequester_no_match (participants : List (String × StoredParticipant))
    (authToken : Option String)
    (h : ∀ e ∈ participants, ¬(strTruthy e.2.authTokenHash = true ∧
      verifyPassword (getStr authToken) (getStr e.2.authTokenHash) = true)) :
    ∃ m, requireRequester participants authToken
      = .error ⟨m, .INVALID_PASSWORD, 401⟩ := by
  unfold requireRequester
  split
  · exact ⟨"Participant auth token required", rfl⟩
  · have hfind : participants.find? (fun e =>
        strTruthy e.2.authTokenHash &&
          verifyPassword (getStr authToken) (getStr e.2.authTokenHash)) = none := by
      rw [List.find?_eq_none]
      intro x hx
      have := h x hx
      intro hc
      rw [Bool.and_eq_true] at hc
      exact this hc
    rw [hfind]
    exact ⟨"Invalid participant auth token", rfl⟩

/-- C6 (amended): in removeParticipant the target-existence check runs
before requester identification: with a valid session password, a missing
target yields PARTICIPANT_NOT_FOUND 404 regardless of the auth token, and
only when the target exists does an auth token that verifies against no
stored digest yield INVALID_PASSWORD 401. -/
theorem remove_target_before_requester (st : DOState) (sess : StoredSession)
    (inp : RemoveInput)
    (hs : st.session = some sess)
    (hpw : strTruthy inp.sessionPassword = true)
    (hv : verifyPassword (getStr inp.sessionPassword) sess.passwordHash = true)
    (hschema : validOptPassword inp.adminPassword = true) :
    (mapGet st.participants inp.targetId = none →
      errInfo (handleRemoveParticipant st inp) = some (.PARTICIPANT_NOT_FOUND, 404)) ∧
    ((mapGet st.participants inp.targetId).isSome = true →
      (∀ e ∈ st.participants, ¬(strTruthy e.2.authTokenHash = true ∧
        verifyPassword (getStr inp.authToken) (getStr e.2.authTokenHash) = true)) →
      errInfo (handleRemoveParticipant st inp) = some (.INVALID_PASSWORD, 401)) := by
  constructor
  · intro htm
    unfold handleRemoveParticipant
    simp only [hs, hpw, hv, hschema, htm, Bool.not_true, Bool.false_eq_true, if_false,
      not_true, not_false_eq_true, if_true]
    rfl
  · intro hts hnm
    obtain ⟨tp, htp⟩ := Option.isSome_iff_exists.mp hts
    obtain ⟨m, hreq⟩ := requireRequester_no_match st.participants inp.authToken hnm
    unfold handleRemoveParticipant
    simp only [hs, hpw, hv, hschema, htp, hreq, Bool.not_true, Bool.false_eq_true,
      if_false, not_true, not_false_eq_true, if_true]
    rfl

/-- Witness for C6's amended theorem: in the two-participant session, a
valid-password request with an unmatched token and a missing target is
answered PARTICIPANT_NOT_FOUND, and with an existing target it is answered
INVALID_PASSWORD. -/
theorem remove_target_before_requester_witness :
    errInfo (handleRemoveParticipant wSt2
        ⟨some "spw", none, some "garbage", "nope", 400⟩)
      = some (.PARTICIPANT_NOT_FOUND, 404) ∧
    errInfo (handleRemoveParticipant wSt2
        ⟨some "spw", none, some "garbage", "p2", 400⟩)
      = some (.INVALID_PASSWORD, 401) :=
  ⟨(remove_target_before_requester wSt2 wSess2
      ⟨some "spw", none, some "garbage", "nope", 400⟩
      (by decide) (by decide) (by decide) (by decide)).1 (by decide),
   (remove_target_before_requester wSt2 wSess2
      ⟨some "spw", none, some "garbage", "p2", 400⟩
      (by decide) (by decide) (by decide) (by decide)).2 (by decide) (by decide)⟩

/-- Counterexample to C6 as stated: with a valid session password and an
auth token matching no stored digest, a missing target is answered
PARTICIPANT_NOT_FOUND 404, not INVALID_PASSWORD 401 — the target check runs
first, so 404 is not reserved for identified requesters. -/
theorem remove_c6_counterexample :
    errInfo (handleRemoveParticipant wSt2
        ⟨some "spw", none, some "garbage", "nope", 400⟩)
      = some (.PARTICIPANT_NOT_FOUND, 404) ∧
    errInfo (handleRemoveParticipant wSt2
        ⟨some "spw", none, some "garbage", "nope", 400⟩)
      ≠ some (.INVALID_PASSWORD, 401) := by
  constructor
  · decide
  · decide

/-- Alice as stored by wSt2 (admin, creator). -/
def wAlice : StoredParticipant :=
  { id := "p1", displayName := "Alice", joinedAt := 100, lastSeen := 100,
    isAdmin := true, authTokenHash := some (hashPassword "tok1") }

/-- Bob as stored by wSt2 (regular participant). -/
def wBob : StoredParticipant :=
  { id := "p2", displayName := "Bob", joinedAt := 200, lastSeen := 200,
    isAdmin := false, authTokenHash := some (hashPassword "tok2") }

/-- C5 (amended): with a valid session password, an existing target and an
identified requester, self-removal always succeeds (deleting the
participant and their cursor), and removal of another participant without a
correct nonempty admin password fails ADMIN_REQUIRED 403 uniformly — the
same code whether the requester is a non-admin, the admin password is
absent, or it is nonempty and wrong; an empty-string admin password is
instead rejected earlier as VALIDATION_ERROR 400 by the request schema,
still independently of the requester's admin status. -/
theorem remove_self_and_admin_rules (st : DOState) (sess : StoredSession)
    (inp : RemoveInput) (requester : StoredParticipant)
    (hs : st.session = some sess)
    (hpw : strTruthy inp.sessionPassword = true)
    (hv : verifyPassword (getStr inp.sessionPassword) sess.passwordHash = true)
    (hschema : validOptPassword inp.adminPassword = true)
    (hts : (mapGet st.participants inp.targetId).isSome = true)
    (hreq : requireRequester st.participants inp.authToken = .ok requester) :
    (requester.id = inp.targetId →
      handleRemoveParticipant st inp =
        (.ok (), { st with
          participants := mapDelete st.participants inp.targetId
          readCursors := mapDelete st.readCursors inp.targetId
          session := some (refreshSession sess inp.now) })) ∧
    (requester.id ≠ inp.targetId →
      (inp.adminPassword = none ∨
        ∃ p, inp.adminPassword = some p ∧ p ≠ "" ∧
          verifyPassword p sess.adminPasswordHash = false) →
      errInfo (handleRemoveParticipant st inp) = some (.ADMIN_REQUIRED, 403)) := by
  obtain ⟨tp, htp⟩ := Option.isSome_iff_exists.mp hts
  constructor
  · intro hself
    have hbeq : (requester.id == inp.targetId) = true := by
      simp [hself]
    unfold handleRemoveParticipant
    simp only [hs, hpw, hv, hschema, htp, hreq, hbeq, Bool.not_true,
      Bool.false_eq_true, if_false, not_true, not_false_eq_true, if_true,
      Bool.false_and, Bool.and_false]
  · intro hother hbad
    have hbeq : (requester.id == inp.targetId) = false := by
      simp [hother]
    unfold handleRemoveParticipant
    simp only [hs, hpw, hv, hschema, htp, hreq, hbeq, Bool.not_true,
      Bool.false_eq_true, if_false, not_true, not_false_eq_true, if_true,
      Bool.not_false, Bool.true_and]
    by_cases hadm : requester.isAdmin = true
    · simp only [hadm, Bool.not_true, Bool.false_eq_true, if_false]
      rcases hbad with hnone | ⟨p, hp, hpne, hpv⟩
      · have hft : strTruthy inp.adminPassword = false := by
          rw [hnone]
          rfl
        simp only [hft, Bool.not_false, if_true]
        rfl
      · have hft : strTruthy inp.adminPassword = true := by
          rw [hp]
          simp [strTruthy, hpne]
        have hgp : getStr inp.adminPassword = p := by
          rw [hp]
          rfl
        simp only [hft, Bool.not_true, Bool.false_eq_true, if_false, hgp, hpv,
          Bool.not_false, if_true]
        rfl
    · have hadm2 : requester.isAdmin = false := Bool.eq_false_iff.mpr hadm
      simp only [hadm2, Bool.not_false, if_true]
      rfl

/-- Witness for C5's amended theorem: Bob removes himself with his own
token; Alice (the admin) fails with ADMIN_REQUIRED against Bob both with no
admin password and with a wrong one, as does non-admin Bob targeting Alice. -/
theorem remove_self_and_admin_rules_witness :
    handleRemoveParticipant wSt2 ⟨some "spw", none, some "tok2", "p2", 400⟩ =
      (.ok (), { wSt2 with
        participants := mapDelete wSt2.participants "p2"
        readCursors := mapDelete wSt2.readCursors "p2"
        session := some (refreshSession wSess2 400) }) ∧
    errInfo (handleRemoveParticipant wSt2
        ⟨some "spw", some "wrong", some "tok1", "p2", 400⟩)
      = some (.ADMIN_REQUIRED, 403) ∧
    errInfo (handleRemoveParticipant wSt2
        ⟨some "spw", none, some "tok2", "p1", 400⟩)
      = some (.ADMIN_REQUIRED, 403) :=
  ⟨(remove_self_and_admin_rules wSt2 wSess2 ⟨some "spw", none, some "tok2", "p2", 400⟩
      wBob (by decide) (by decide) (by decide) (by decide) (by decide) (by decide)).1
      (by decide),
   (remove_self_and_admin_rules wSt2 wSess2
      ⟨some "spw", some "wrong", some "tok1", "p2", 400⟩
      wAlice (by decide) (by decide) (by decide) (by decide) (by decide) (by decide)).2
      (by decide) (Or.inr ⟨"wrong", rfl, by decide, by decide⟩),
   (remove_self_and_admin_rules wSt2 wSess2 ⟨some "spw", none, some "tok2", "p1", 400⟩
      wBob (by decide) (by decide) (by decide) (by decide) (by decide) (by decide)).2
      (by decide) (Or.inl rfl)⟩

/-- Counterexample to C5 as stated: an admin requester removing another
participant while presenting an empty-string admin password header is
refused with VALIDATION_ERROR 400, not ADMIN_REQUIRED 403. -/
theorem remove_c5_counterexample :
    errInfo (handleRemoveParticipant wSt2
        ⟨some "spw", some "", some "tok1", "p2", 400⟩)
      = some (.VALIDATION_ERROR, 400) ∧
    errInfo (handleRemoveParticipant wSt2
        ⟨some "spw", some "", some "tok1", "p2", 400⟩)
      ≠ some (.ADMIN_REQUIRED, 403) := by
  constructor
  · decide
  · decide

/-! ### C9: reads with a stale cursor -/

theorem validLimitParam_pos (lp : Option Nat) (h : validLimitParam lp = true) :
    1 ≤ lp.getD DEFAULT_MESSAGE_LIMIT := by
  cases lp with
  | none =>
    simp only [Option.getD_none, DEFAULT_MESSAGE_LIMIT]
    omega
  | some l =>
    simp only [validLimitParam, Bool.and_eq_true, decide_eq_true_eq] at h
    simpa using h.1

theorem take_ne_nil_of_pos {α : Type} (l : List α) (k : Nat)
    (hk : 1 ≤ k) (hl : l ≠ []) : l.take k ≠ [] := by
  cases l with
  | nil => exact absurd rfl hl
  | cons a t =>
    cases k with
    | zero => omega
    | succ j => simp

theorem map_id_toMessageInfo (P : List (String × StoredParticipant))
    (R : List StoredMessage) :
    (R.map (fun m => toMessageInfo m P)).map (fun mi => mi.id)
      = R.map (fun m => m.id) := by
  rw [List.map_map]
  rfl

/-- C9: when the cursor a readMessages call resolves (the explicit after
parameter if present, else the stored cursor) matches no message currently
in the log — in particular when that message has been evicted — the read
silently restarts from the start of the log: it succeeds and returns the
oldest retained messages (the first limit of them), re-delivering them
rather than failing or returning an empty set. -/
theorem read_restarts_on_stale_cursor (st : DOState) (inp : ReadInput)
    (sess : StoredSession) (lim : RateLimiter) (participant : StoredParticipant)
    (hs : st.session = some sess)
    (hpw : strTruthy inp.sessionPassword = true)
    (hv : verifyPassword (getStr inp.sessionPassword) sess.passwordHash = true)
    (hpid : 1 ≤ inp.participant_id.length)
    (hlimp : validLimitParam inp.limitParam = true)
    (hrl : checkRateLimit st.readLimiter inp.participant_id inp.now = (.ok (), lim))
    (hauth : requireParticipantAuth st.participants inp.participant_id inp.authToken
      = .ok participant)
    (hnm : ∀ m ∈ st.messages, (m.id ==
      getStr (resolveCursor st.readCursors inp.participant_id inp.after)) = false) :
    ∃ resp st', handleReadMessages st inp = (.ok resp, st') ∧
      resp.messages.map (fun mi => mi.id)
        = (st.messages.take (inp.limitParam.getD DEFAULT_MESSAGE_LIMIT)).map
            (fun m => m.id) ∧
      (st.messages ≠ [] → resp.messages ≠ []) := by
  have hstart : cursorStart st.messages
      (resolveCursor st.readCursors inp.participant_id inp.after) = 0 :=
    cursorStart_of_no_match _ _ hnm
  have hspec := handleReadMessages_ok_spec st inp sess lim participant
    hs hpw hv hpid hlimp hrl hauth
  refine ⟨_, _, hspec, ?_, ?_⟩
  · simp only [hstart, map_id_toMessageInfo]
    rw [sliceAfter_fst, List.drop_zero]
  · intro hne
    simp only [hstart]
    rw [sliceAfter_fst, List.drop_zero]
    have h1 := validLimitParam_pos inp.limitParam hlimp
    have h2 := take_ne_nil_of_pos st.messages _ h1 hne
    simpa using h2

/-- p1 sends hello twice into the witness session. -/
def wSendInp (i : String) (n : Nat) : SendInput :=
  ⟨some "spw", some "tok1", "p1", "hello", i, n⟩

/-- The witness session holding messages m1 and m2. -/
def wSt3 : DOState :=
  (handleSendMessage (handleSendMessage wSt2 (wSendInp "m1" 300)).2
    (wSendInp "m2" 301)).2

/-- The session record inside wSt3 (activity refreshed by the second send). -/
def wSess3 : StoredSession := { wSess2 with expiresAt := 301 + SESSION_TTL_MS, lastActivity := 301 }

/-- Witness for C9: in the two-message session, p2 reads with the stale
explicit cursor evicted and receives both retained messages from the start. -/
theorem read_restarts_on_stale_cursor_witness :
    ∃ resp st', handleReadMessages wSt3
        ⟨some "spw", some "tok2", "p2", none, some "evicted", 400⟩
      = (.ok resp, st') ∧
      resp.messages.map (fun mi => mi.id)
        = (wSt3.messages.take 100).map (fun m => m.id) ∧
      (wSt3.messages ≠ [] → resp.messages ≠ []) :=
  read_restarts_on_stale_cursor wSt3
    ⟨some "spw", some "tok2", "p2", none, some "evicted", 400⟩
    wSess3 ⟨[("p2", [400])], RATE_LIMITS_MESSAGE_READ⟩
    { wBob with lastSeen := 200 }
    (by decide) (by decide) (by decide) (by decide) (by decide) (by decide)
    (by decide) (by decide)

/-! ### C4: the participant-capacity invariant -/

theorem mapGet_isSome_any {α : Type} (m : List (String × α)) (k : String)
    (h : (mapGet m k).isSome = true) : (m.any fun e => e.1 == k) = true := by
  unfold mapGet at h
  rw [List.any_eq_true]
  split at h
  · next e he =>
    exact ⟨e, List.mem_of_find?_eq_some he, by
      have := List.find?_some he
      exact this⟩
  · simp at h

theorem mapSet_length_of_isSome {α : Type} (m : List (String × α)) (k : String)
    (v : α) (h : (mapGet m k).isSome = true) :
    (mapSet m k v).length = m.length := by
  unfold mapSet
  rw [if_pos (mapGet_isSome_any m k h)]
  exact List.length_map m _

theorem mapDelete_length_lt {α : Type} (m : List (String × α)) (k : String)
    (h : (mapGet m k).isSome = true) :
    (mapDelete m k).length < m.length := by
  induction m with
  | nil => simp [mapGet] at h
  | cons e t ih =>
    by_cases he : (e.1 == k) = true
    · have heb : (e.1 != k) = false := by
        simp only [bne, he]
        rfl
      have hfil : mapDelete (e :: t) k = mapDelete t k := by
        simp [mapDelete, List.filter, heb]
      rw [hfil]
      have := mapDelete_length_le t k
      simp only [List.length_cons]
      omega
    · have he2 : (e.1 == k) = false := Bool.eq_false_iff.mpr he
      have heb : (e.1 != k) = true := by
        simp only [bne, he2]
        rfl
      have hfil : mapDelete (e :: t) k = e :: mapDelete t k := by
        simp [mapDelete, List.filter, heb]
      have ht : (mapGet t k).isSome = true := by
        simp only [mapGet, List.find?, he2] at h ⊢
        exact h
      have := ih ht
      rw [hfil]
      simp only [List.length_cons]
      omega

theorem requireParticipantAuth_ok_get (participants : List (String × StoredParticipant))
    (pid : String) (tok : Option String) (p : StoredParticipant)
    (h : requireParticipantAuth participants pid tok = .ok p) :
    mapGet participants pid = some p := by
  unfold requireParticipantAuth at h
  split at h
  · simp at h
  · split at h
    · simp at h
    · next participant hget =>
      split at h
      · simp at h
      · split at h
        · injection h with h0
          rw [← h0]
          exact hget
        · simp at h

/-- The capacity invariant together with the blank-instance fact needed to
re-establish it across create. -/
def Inv (st : DOState) : Prop :=
  st.participants.length ≤ MAX_PARTICIPANTS ∧
    (st.session = none → st.participants = [])

theorem inv_handleCreate (st : DOState) (inp : CreateInput) (h : Inv st) :
    Inv (handleCreate st inp).2 := by
  obtain ⟨h1, h2⟩ := h
  unfold handleCreate
  split
  · exact ⟨h1, h2⟩
  · next hs =>
    split
    · exact ⟨h1, h2⟩
    · refine ⟨?_, fun hc => absurd hc (by simp)⟩
      rw [h2 hs]
      simp [mapSet, MAX_PARTICIPANTS]

theorem inv_handleJoin (st : DOState) (inp : JoinInput) (h : Inv st) :
    Inv (handleJoin st inp).2 := by
  obtain ⟨h1, h2⟩ := h
  unfold handleJoin
  split
  · exact ⟨h1, h2⟩
  · split
    · exact ⟨h1, h2⟩
    · split
      · exact ⟨h1, h2⟩
      · split
        · exact ⟨h1, h2⟩
        · split
          · exact ⟨h1, h2⟩
          · next hfull =>
            refine ⟨?_, fun hc => absurd hc (by simp)⟩
            simp only []
            refine le_trans (mapSet_length_le _ _ _) ?_
            have h3 : MAX_PARTICIPANTS = 3 := rfl
            rw [h3] at hfull ⊢
            omega

theorem inv_handleSendMessage (st : DOState) (inp : SendInput) (h : Inv st) :
    Inv (handleSendMessage st inp).2 := by
  obtain ⟨h1, h2⟩ := h
  unfold handleSendMessage
  split
  · exact ⟨h1, h2⟩
  · split
    · exact ⟨h1, h2⟩
    · split
      · exact ⟨h1, h2⟩
      · split
        · exact ⟨h1, h2⟩
        · split
          · exact ⟨h1, h2⟩
          · split
            · exact ⟨h1, h2⟩
            · simp only []
              split
              · exact ⟨h1, h2⟩
              · next participant hauth =>
                refine ⟨?_, fun hc => absurd hc (by simp)⟩
                simp only []
                have hget := requireParticipantAuth_ok_get _ _ _ _ hauth
                have hiso : (mapGet st.participants inp.participant_id).isSome = true := by
                  rw [hget]
                  rfl
                rw [mapSet_length_of_isSome _ _ _ hiso]
                exact h1

theorem inv_handleReadMessages (st : DOState) (inp : ReadInput) (h : Inv st) :
    Inv (handleReadMessages st inp).2 := by
  obtain ⟨h1, h2⟩ := h
  unfold handleReadMessages
  split
  · exact ⟨h1, h2⟩
  · split
    · exact ⟨h1, h2⟩
    · split
      · exact ⟨h1, h2⟩
      · split
        · exact ⟨h1, h2⟩
        · try simp only []
          split
          · exact ⟨h1, h2⟩
          · try simp only []
            split
            · exact ⟨h1, h2⟩
            · next participant hauth =>
              refine ⟨?_, fun hc => absurd hc (by simp)⟩
              try simp only []
              have hget := requireParticipantAuth_ok_get _ _ _ _ hauth
              have hiso : (mapGet st.participants inp.participant_id).isSome = true := by
                rw [hget]
                rfl
              rw [mapSet_length_of_isSome _ _ _ hiso]
              exact h1

theorem inv_handleListParticipants (st : DOState) (inp : SimpleInput) (h : Inv st) :
    Inv (handleListParticipants st inp).2 := by
  obtain ⟨h1, h2⟩ := h
  unfold handleListParticipants
  split
  · exact ⟨h1, h2⟩
  · split
    · exact ⟨h1, h2⟩
    · split
      · exact ⟨h1, h2⟩
      · exact ⟨h1, fun hc => absurd hc (by simp)⟩

theorem inv_handleGetSessionInfo (st : DOState) (inp : SimpleInput) (h : Inv st) :
    Inv (handleGetSessionInfo st inp).2 := by
  obtain ⟨h1, h2⟩ := h
  unfold handleGetSessionInfo
  split
  · exact ⟨h1, h2⟩
  · split
    · exact ⟨h1, h2⟩
    · split
      · exact ⟨h1, h2⟩
      · exact ⟨h1, fun hc => absurd hc (by simp)⟩

theorem inv_handleRemoveParticipant (st : DOState) (inp : RemoveInput) (h : Inv st) :
    Inv (handleRemoveParticipant st inp).2 := by
  obtain ⟨h1, h2⟩ := h
  unfold handleRemoveParticipant
  split
  · exact ⟨h1, h2⟩
  · split
    · exact ⟨h1, h2⟩
    · split
      · exact ⟨h1, h2⟩
      · split
        · exact ⟨h1, h2⟩
        · split
          · exact ⟨h1, h2⟩
          · split
            · exact ⟨h1, h2⟩
            · try simp only []
              split
              · exact ⟨h1, h2⟩
              · split
                · exact ⟨h1, h2⟩
                · split
                  · exact ⟨h1, h2⟩
                  · refine ⟨?_, fun hc => absurd hc (by simp)⟩
                    show (mapDelete st.participants inp.targetId).length ≤ MAX_PARTICIPANTS
                    have := mapDelete_length_le st.participants inp.targetId
                    omega

theorem inv_handleEndSession (st : DOState) (inp : EndInput) (h : Inv st) :
    Inv (handleEndSession st inp).2 := by
  obtain ⟨h1, h2⟩ := h
  unfold handleEndSession
  split
  · exact ⟨h1, h2⟩
  · split
    · exact ⟨h1, h2⟩
    · split
      · exact ⟨h1, h2⟩
      · exact ⟨h1, fun hc => absurd hc (by simp)⟩

theorem inv_fetchStep (st : DOState) (op : Op) (h : Inv st) :
    Inv (fetchStep st op).2 := by
  obtain ⟨h1, h2⟩ := h
  unfold fetchStep
  split
  · exact ⟨h1, h2⟩
  · cases op with
    | create ip inp => exact inv_handleCreate _ inp ⟨h1, h2⟩
    | join ip inp =>
      simp only []
      split
      · exact ⟨h1, h2⟩
      · split
        · exact ⟨h1, h2⟩
        · exact inv_handleJoin _ inp ⟨h1, h2⟩
    | send ip inp =>
      simp only []
      split
      · exact ⟨h1, h2⟩
      · exact inv_handleSendMessage _ inp ⟨h1, h2⟩
    | read ip inp =>
      simp only []
      split
      · exact ⟨h1, h2⟩
      · exact inv_handleReadMessages _ inp ⟨h1, h2⟩
    | listParticipants ip inp =>
      simp only []
      split
      · exact ⟨h1, h2⟩
      · exact inv_handleListParticipants _ inp ⟨h1, h2⟩
    | sessionInfo ip inp =>
      simp only []
      split
      · exact ⟨h1, h2⟩
      · exact inv_handleGetSessionInfo _ inp ⟨h1, h2⟩
    | removeParticipant ip inp =>
      simp only []
      split
      · exact ⟨h1, h2⟩
      · exact inv_handleRemoveParticipant _ inp ⟨h1, h2⟩
    | endSession ip inp =>
      simp only []
      split
      · exact ⟨h1, h2⟩
      · exact inv_handleEndSession _ inp ⟨h1, h2⟩
    | unknownPath ip now =>
      simp only []
      split
      · exact ⟨h1, h2⟩
      · exact ⟨h1, h2⟩

theorem reachable_inv (st : DOState) (h : Reachable st) : Inv st := by
  induction h with
  | init mm ml => exact ⟨Nat.zero_le _, fun _ => rfl⟩
  | step op hr ih => exact inv_fetchStep _ op ih

/-- A successful removeParticipant deleted an existing target (and its
cursor) and refreshed the session. -/
theorem handleRemoveParticipant_ok_state (st : DOState) (inp : RemoveInput)
    (st' : DOState) (h : handleRemoveParticipant st inp = (.ok (), st')) :
    ∃ sess, st.session = some sess ∧
      (mapGet st.participants inp.targetId).isSome = true ∧
      st' = { st with
        participants := mapDelete st.participants inp.targetId
        readCursors := mapDelete st.readCursors inp.targetId
        session := some (refreshSession sess inp.now) } := by
  unfold handleRemoveParticipant at h
  split at h
  · simp at h
  · split at h
    · simp at h
    · next sess hs =>
      split at h
      · simp at h
      · split at h
        · simp at h
        · split at h
          · simp at h
          · next tp htp =>
            split at h
            · simp at h
            · simp only [] at h
              split at h
              · simp at h
              · split at h
                · simp at h
                · split at h
                  · simp at h
                  · refine ⟨sess, hs, by rw [htp]; rfl, ?_⟩
                    injection h with h1 h2
                    exact h2.symm

/-- handleJoin succeeds whenever the session password is right, the display
name valid, and a slot is free. -/
theorem handleJoin_ok (st : DOState) (inp : JoinInput) (sess : StoredSession)
    (hs : st.session = some sess)
    (hpw : strTruthy inp.sessionPassword = true)
    (hv : verifyPassword (getStr inp.sessionPassword) sess.passwordHash = true)
    (hn1 : 1 ≤ (strTrim inp.display_name).length)
    (hn2 : (strTrim inp.display_name).length ≤ 100)
    (hroom : st.participants.length < MAX_PARTICIPANTS) :
    ∃ r st2, handleJoin st inp = (.ok r, st2) := by
  unfold handleJoin
  simp only [hs, hpw, hv, Bool.not_true, Bool.false_eq_true, if_false,
    not_not_intro (And.intro hn1 hn2), not_false_eq_true, if_true]
  rw [if_neg (Nat.not_le.mpr hroom)]
  exact ⟨_, _, rfl⟩

/-- C4: in every reachable state the participant count is at most
MAX_PARTICIPANTS (3); a join attempted with a valid session password and
display name when the count equals 3 fails with SESSION_FULL 403 and leaves
the state unchanged; and after a successful removal the next join with a
valid session password succeeds. -/
theorem participant_capacity (st : DOState) :
    (Reachable st → st.participants.length ≤ MAX_PARTICIPANTS) ∧
    (∀ (inp : JoinInput) (sess : StoredSession),
      st.session = some sess →
      strTruthy inp.sessionPassword = true →
      verifyPassword (getStr inp.sessionPassword) sess.passwordHash = true →
      1 ≤ (strTrim inp.display_name).length →
      (strTrim inp.display_name).length ≤ 100 →
      st.participants.length = MAX_PARTICIPANTS →
      handleJoin st inp = (.error ⟨"Session is full", .SESSION_FULL, 403⟩, st)) ∧
    (∀ (rinp : RemoveInput) (st' : DOState) (jinp : JoinInput) (sess' : StoredSession),
      st.participants.length ≤ MAX_PARTICIPANTS →
      handleRemoveParticipant st rinp = (.ok (), st') →
      st'.session = some sess' →
      strTruthy jinp.sessionPassword = true →
      verifyPassword (getStr jinp.sessionPassword) sess'.passwordHash = true →
      1 ≤ (strTrim jinp.display_name).length →
      (strTrim jinp.display_name).length ≤ 100 →
      ∃ r st2, handleJoin st' jinp = (.ok r, st2)) := by
  refine ⟨fun hr => (reachable_inv st hr).1, ?_, ?_⟩
  · intro inp sess hs hpw hv hn1 hn2 hfull
    unfold handleJoin
    simp only [hs, hpw, hv, Bool.not_true, Bool.false_eq_true, if_false,
      not_not_intro (And.intro hn1 hn2), not_false_eq_true, if_true]
    rw [if_pos (by rw [hfull])]
  · intro rinp st' jinp sess' hcap hrm hs hpw hv hn1 hn2
    obtain ⟨sess, _, hsome, hst⟩ := handleRemoveParticipant_ok_state st rinp st' hrm
    have hlt := mapDelete_length_lt st.participants rinp.targetId hsome
    have hlen : st'.participants.length < MAX_PARTICIPANTS := by
      have : st'.participants = mapDelete st.participants rinp.targetId := by
        rw [hst]
      rw [this]
      omega
    exact handleJoin_ok st' jinp sess' hs hpw hv hn1 hn2 hlen

/-- Carol joins as the third participant. -/
def wJoin3Inp : JoinInput :=
  { sessionPassword := some "spw", display_name := "Carol", participantId := "p3",
    authToken := "tok3", now := 210 }

/-- The full three-participant session. -/
def wSt4 : DOState := (handleJoin wSt2 wJoin3Inp).2

/-- The session record inside wSt4. -/
def wSess4 : StoredSession :=
  { wSess2 with expiresAt := 210 + SESSION_TTL_MS, lastActivity := 210 }

/-- A reachable two-participant state built through the dispatcher. -/
def wReach2 : DOState :=
  (fetchStep (fetchStep (initialState 1000 50000)
    (Op.create "ip" wCreateInp)).2 (Op.join "ip" wJoinInp)).2

/-- Carol removes herself at time 500. -/
def wRem3Inp : RemoveInput :=
  { sessionPassword := some "spw", adminPassword := none,
    authToken := some "tok3", targetId := "p3", now := 500 }

/-- Witness for C4: the dispatcher-reachable state satisfies the bound; a
fourth join into the full session is refused SESSION_FULL with the state
unchanged; after Carol removes herself, Dave's join succeeds. -/
theorem participant_capacity_witness :
    wReach2.participants.length ≤ MAX_PARTICIPANTS ∧
    handleJoin wSt4 ⟨some "spw", "Dave", "p4", "tok4", 600⟩
      = (.error ⟨"Session is full", .SESSION_FULL, 403⟩, wSt4) ∧
    (∃ r st2, handleJoin (handleRemoveParticipant wSt4 wRem3Inp).2
      ⟨some "spw", "Dave", "p4", "tok4", 600⟩ = (.ok r, st2)) :=
  ⟨(participant_capacity wReach2).1
      (Reachable.step _ (Reachable.step _ (Reachable.init 1000 50000))),
   (participant_capacity wSt4).2.1 ⟨some "spw", "Dave", "p4", "tok4", 600⟩ wSess4
      (by decide) (by decide) (by decide) (by decide) (by decide) (by decide),
   (participant_capacity wSt4).2.2 wRem3Inp (handleRemoveParticipant wSt4 wRem3Inp).2
      ⟨some "spw", "Dave", "p4", "tok4", 600⟩
      { wSess4 with expiresAt := 500 + SESSION_TTL_MS, lastActivity := 500 }
      (by decide) (by decide) (by decide) (by decide) (by decide) (by decide)
      (by decide)⟩

/-! ### C7: ended sessions -/

/-- The only error checkRateLimit produces is RATE_LIMITED 429. -/
theorem checkRateLimit_error_shape (rl : RateLimiter) (key : String) (now : Nat)
    (e : ChatError) (lim : RateLimiter)
    (h : checkRateLimit rl key now = (.error e, lim)) :
    e = ⟨"Rate limit exceeded. Try again later.", .RATE_LIMITED, 429⟩ := by
  simp only [checkRateLimit] at h
  split at h
  · simp at h
  · injection h with h1 h2
    injection h1 with h3
    exact h3.symm

/-- The fetch guard reports an ended session as SESSION_NOT_FOUND. -/
theorem guardSession_ended (st : DOState) (sess : StoredSession) (now : Nat)
    (hs : st.session = some sess) (he : sess.ended = true) :
    guardSession st now = .error ⟨"Session not found", .SESSION_NOT_FOUND, 404⟩ := by
  unfold guardSession
  rw [hs]
  simp [he]

/-- A successful endSession only flips the ended flag. -/
theorem handleEndSession_ok_state (st : DOState) (inp : EndInput) (st' : DOState)
    (h : handleEndSession st inp = (.ok (), st')) :
    ∃ sess, st.session = some sess ∧
      st' = { st with session := some { sess with ended := true } } := by
  unfold handleEndSession at h
  split at h
  · simp at h
  · split at h
    · simp at h
    · next sess hs =>
      split at h
      · simp at h
      · injection h with h1 h2
        exact ⟨sess, hs, h2.symm⟩

/-- On an ended session, one dispatcher step rejects every non-create
request with SESSION_NOT_FOUND or RATE_LIMITED, and no step (create
included) changes the session, participants, messages or cursors. -/
theorem ended_fetchStep (st : DOState) (sess : StoredSession) (op : Op)
    (hs : st.session = some sess) (he : sess.ended = true) :
    (op.isCreate = false →
      ∃ e, (fetchStep st op).1 = .error e ∧
        ((e.code = .SESSION_NOT_FOUND ∧ e.httpStatus = 404) ∨
         (e.code = .RATE_LIMITED ∧ e.httpStatus = 429))) ∧
    (fetchStep st op).2.session = st.session ∧
    (fetchStep st op).2.participants = st.participants ∧
    (fetchStep st op).2.messages = st.messages ∧
    (fetchStep st op).2.readCursors = st.readCursors := by
  cases op with
  | create ip inp =>
    refine ⟨fun hc => by simp [Op.isCreate] at hc, ?_⟩
    unfold fetchStep
    split
    · exact ⟨rfl, rfl, rfl, rfl⟩
    · next u gl hck =>
      simp only [packResp]
      unfold handleCreate
      simp [hs]
  | join ip inp =>
    constructor
    · intro hnc
      unfold fetchStep
      split
      · next e gl hck =>
        exact ⟨e, rfl, Or.inr (by
          rw [checkRateLimit_error_shape _ _ _ _ _ hck]
          exact ⟨rfl, rfl⟩)⟩
      · next u gl hck =>
        have hge : guardSession { st with generalLimiter := gl } inp.now
            = .error ⟨"Session not found", .SESSION_NOT_FOUND, 404⟩ :=
          guardSession_ended _ sess _ hs he
        simp only []
        rw [hge]
        exact ⟨_, rfl, Or.inl ⟨rfl, rfl⟩⟩
    · unfold fetchStep
      split
      · exact ⟨rfl, rfl, rfl, rfl⟩
      · next u gl hck =>
        have hge : guardSession { st with generalLimiter := gl } inp.now
            = .error ⟨"Session not found", .SESSION_NOT_FOUND, 404⟩ :=
          guardSession_ended _ sess _ hs he
        simp only []
        rw [hge]
        exact ⟨rfl, rfl, rfl, rfl⟩
  | send ip inp =>
    constructor
    · intro hnc
      unfold fetchStep
      split
      · next e gl hck =>
        exact ⟨e, rfl, Or.inr (by
          rw [checkRateLimit_error_shape _ _ _ _ _ hck]
          exact ⟨rfl, rfl⟩)⟩
      · next u gl hck =>
        have hge : guardSession { st with generalLimiter := gl } inp.now
            = .error ⟨"Session not found", .SESSION_NOT_FOUND, 404⟩ :=
          guardSession_ended _ sess _ hs he
        simp only []
        rw [hge]
        exact ⟨_, rfl, Or.inl ⟨rfl, rfl⟩⟩
    · unfold fetchStep
      split
      · exact ⟨rfl, rfl, rfl, rfl⟩
      · next u gl hck =>
        have hge : guardSession { st with generalLimiter := gl } inp.now
            = .error ⟨"Session not found", .SESSION_NOT_FOUND, 404⟩ :=
          guardSession_ended _ sess _ hs he
        simp only []
        rw [hge]
        exact ⟨rfl, rfl, rfl, rfl⟩
  | read ip inp =>
    constructor
    · intro hnc
      unfold fetchStep
      split
      · next e gl hck =>
        exact ⟨e, rfl, Or.inr (by
          rw [checkRateLimit_error_shape _ _ _ _ _ hck]
          exact ⟨rfl, rfl⟩)⟩
      · next u gl hck =>
        have hge : guardSession { st with generalLimiter := gl } inp.now
            = .error ⟨"Session not found", .SESSION_NOT_FOUND, 404⟩ :=
          guardSession_ended _ sess _ hs he
        simp only []
        rw [hge]
        exact ⟨_, rfl, Or.inl ⟨rfl, rfl⟩⟩
    · unfold fetchStep
      split
      · exact ⟨rfl, rfl, rfl, rfl⟩
      · next u gl hck =>
        have hge : guardSession { st with generalLimiter := gl } inp.now
            = .error ⟨"Session not found", .SESSION_NOT_FOUND, 404⟩ :=
          guardSession_ended _ sess _ hs he
        simp only []
        rw [hge]
        exact ⟨rfl, rfl, rfl, rfl⟩
  | listParticipants ip inp =>
    constructor
    · intro hnc
      unfold fetchStep
      split
      · next e gl hck =>
        exact ⟨e, rfl, Or.inr (by
          rw [checkRateLimit_error_shape _ _ _ _ _ hck]
          exact ⟨rfl, rfl⟩)⟩
      · next u gl hck =>
        have hge : guardSession { st with generalLimiter := gl } inp.now
            = .error ⟨"Session not found", .SESSION_NOT_FOUND, 404⟩ :=
          guardSession_ended _ sess _ hs he
        simp only []
        rw [hge]
        exact ⟨_, rfl, Or.inl ⟨rfl, rfl⟩⟩
    · unfold fetchStep
      split
      · exact ⟨rfl, rfl, rfl, rfl⟩
      · next u gl hck =>
        have hge : guardSession { st with generalLimiter := gl } inp.now
            = .error ⟨"Session not found", .SESSION_NOT_FOUND, 404⟩ :=
          guardSession_ended _ sess _ hs he
        simp only []
        rw [hge]
        exact ⟨rfl, rfl, rfl, rfl⟩
  | sessionInfo ip inp =>
    constructor
    · intro hnc
      unfold fetchStep
      split
      · next e gl hck =>
        exact ⟨e, rfl, Or.inr (by
          rw [checkRateLimit_error_shape _ _ _ _ _ hck]
          exact ⟨rfl, rfl⟩)⟩
      · next u gl hck =>
        have hge : guardSession { st with generalLimiter := gl } inp.now
            = .error ⟨"Session not found", .SESSION_NOT_FOUND, 404⟩ :=
          guardSession_ended _ sess _ hs he
        simp only []
        rw [hge]
        exact ⟨_, rfl, Or.inl ⟨rfl, rfl⟩⟩
    · unfold fetchStep
      split
      · exact ⟨rfl, rfl, rfl, rfl⟩
      · next u gl hck =>
        have hge : guardSession { st with generalLimiter := gl } inp.now
            = .error ⟨"Session not found", .SESSION_NOT_FOUND, 404⟩ :=
          guardSession_ended _ sess _ hs he
        simp only []
        rw [hge]
        exact ⟨rfl, rfl, rfl, rfl⟩
  | removeParticipant ip inp =>
    constructor
    · intro hnc
      unfold fetchStep
      split
      · next e gl hck =>
        exact ⟨e, rfl, Or.inr (by
          rw [checkRateLimit_error_shape _ _ _ _ _ hck]
          exact ⟨rfl, rfl⟩)⟩
      · next u gl hck =>
        have hge : guardSession { st with generalLimiter := gl } inp.now
            = .error ⟨"Session not found", .SESSION_NOT_FOUND, 404⟩ :=
          guardSession_ended _ sess _ hs he
        simp only []
        rw [hge]
        exact ⟨_, rfl, Or.inl ⟨rfl, rfl⟩⟩
    · unfold fetchStep
      split
      · exact ⟨rfl, rfl, rfl, rfl⟩
      · next u gl hck =>
        have hge : guardSession { st with generalLimiter := gl } inp.now
            = .error ⟨"Session not found", .SESSION_NOT_FOUND, 404⟩ :=
          guardSession_ended _ sess _ hs he
        simp only []
        rw [hge]
        exact ⟨rfl, rfl, rfl, rfl⟩
  | endSession ip inp =>
    constructor
    · intro hnc
      unfold fetchStep
      split
      · next e gl hck =>
        exact ⟨e, rfl, Or.inr (by
          rw [checkRateLimit_error_shape _ _ _ _ _ hck]
          exact ⟨rfl, rfl⟩)⟩
      · next u gl hck =>
        have hge : guardSession { st with generalLimiter := gl } inp.now
            = .error ⟨"Session not found", .SESSION_NOT_FOUND, 404⟩ :=
          guardSession_ended _ sess _ hs he
        simp only []
        rw [hge]
        exact ⟨_, rfl, Or.inl ⟨rfl, rfl⟩⟩
    · unfold fetchStep
      split
      · exact ⟨rfl, rfl, rfl, rfl⟩
      · next u gl hck =>
        have hge : guardSession { st with generalLimiter := gl } inp.now
            = .error ⟨"Session not found", .SESSION_NOT_FOUND, 404⟩ :=
          guardSession_ended _ sess _ hs he
        simp only []
        rw [hge]
        exact ⟨rfl, rfl, rfl, rfl⟩
  | unknownPath ip now =>
    constructor
    · intro hnc
      unfold fetchStep
      split
      · next e gl hck =>
        exact ⟨e, rfl, Or.inr (by
          rw [checkRateLimit_error_shape _ _ _ _ _ hck]
          exact ⟨rfl, rfl⟩)⟩
      · next u gl hck =>
        have hge : guardSession { st with generalLimiter := gl } now
            = .error ⟨"Session not found", .SESSION_NOT_FOUND, 404⟩ :=
          guardSession_ended _ sess _ hs he
        simp only []
        rw [hge]
        exact ⟨_, rfl, Or.inl ⟨rfl, rfl⟩⟩
    · unfold fetchStep
      split
      · exact ⟨rfl, rfl, rfl, rfl⟩
      · next u gl hck =>
        have hge : guardSession { st with generalLimiter := gl } now
            = .error ⟨"Session not found", .SESSION_NOT_FOUND, 404⟩ :=
          guardSession_ended _ sess _ hs he
        simp only []
        rw [hge]
        exact ⟨rfl, rfl, rfl, rfl⟩

/-- On an ended session no sequence of requests changes the core state. -/
theorem ended_runOps (st : DOState) (sess : StoredSession)
    (hs : st.session = some sess) (he : sess.ended = true) (ops : List Op) :
    (runOps st ops).session = st.session ∧
    (runOps st ops).participants = st.participants ∧
    (runOps st ops).messages = st.messages ∧
    (runOps st ops).readCursors = st.readCursors := by
  induction ops generalizing st with
  | nil => exact ⟨rfl, rfl, rfl, rfl⟩
  | cons op rest ih =>
    have hstep := (ended_fetchStep st sess op hs he).2
    have hs2 : (fetchStep st op).2.session = some sess := by
      rw [hstep.1, hs]
    have hrest := ih (fetchStep st op).2 hs2
    have hrun : runOps st (op :: rest) = runOps (fetchStep st op).2 rest := by
      simp [runOps]
    rw [hrun]
    exact ⟨hrest.1.trans hstep.1, (hrest.2.1).trans hstep.2.1,
      (hrest.2.2.1).trans hstep.2.2.1, (hrest.2.2.2).trans hstep.2.2.2⟩

/-- C7 (amended): after a successful endSession every subsequent
session-scoped request is refused — with SESSION_NOT_FOUND 404, except that
the general per-IP rate limiter may reject the request first with
RATE_LIMITED 429 — and no operation other than create is ever dispatched to
its handler again: the session record, participants, messages and read
cursors never change. -/
theorem ended_session_rejects_requests (st st' : DOState) (einp : EndInput)
    (hend : handleEndSession st einp = (.ok (), st')) :
    (∀ ops : List Op,
      (runOps st' ops).session = st'.session ∧
      (runOps st' ops).participants = st'.participants ∧
      (runOps st' ops).messages = st'.messages ∧
      (runOps st' ops).readCursors = st'.readCursors) ∧
    (∀ (ops : List Op) (op : Op), op.isCreate = false →
      ∃ e, (fetchStep (runOps st' ops) op).1 = .error e ∧
        ((e.code = .SESSION_NOT_FOUND ∧ e.httpStatus = 404) ∨
         (e.code = .RATE_LIMITED ∧ e.httpStatus = 429))) := by
  obtain ⟨sess, hs, hst⟩ := handleEndSession_ok_state st einp st' hend
  have hs' : st'.session = some { sess with ended := true } := by rw [hst]
  have he' : ({ sess with ended := true } : StoredSession).ended = true := rfl
  constructor
  · intro ops
    exact ended_runOps st' _ hs' he' ops
  · intro ops op hop
    have hrun := (ended_runOps st' _ hs' he' ops).1
    have hsN : (runOps st' ops).session = some { sess with ended := true } := by
      rw [hrun, hs']
    exact (ended_fetchStep (runOps st' ops) _ op hsN he').1 hop

/-- The admin ends the witness session at time 600. -/
def wEndInp : EndInput := ⟨some "apw", 600⟩

/-- The witness session after a successful endSession. -/
def wEndSt : DOState := (handleEndSession wSt2 wEndInp).2

/-- A read by Bob with the correct credentials after the session ended. -/
def wReadOp : Op := Op.read "ip" ⟨some "spw", some "tok2", "p2", none, none, 700⟩

/-- Witness for C7's amended theorem: after ending the witness session, a
correct-password read changes nothing and is refused with one of the two
codes (here SESSION_NOT_FOUND). -/
theorem ended_session_rejects_requests_witness :
    (runOps wEndSt [wReadOp]).messages = wEndSt.messages ∧
    (∃ e, (fetchStep wEndSt wReadOp).1 = .error e ∧
      ((e.code = .SESSION_NOT_FOUND ∧ e.httpStatus = 404) ∨
       (e.code = .RATE_LIMITED ∧ e.httpStatus = 429))) :=
  ⟨((ended_session_rejects_requests wSt2 wEndSt wEndInp (by decide)).1
      [wReadOp]).2.2.1,
   (ended_session_rejects_requests wSt2 wEndSt wEndInp (by decide)).2
      [] wReadOp (by decide)⟩

theorem runOps_append (st : DOState) (l1 l2 : List Op) :
    runOps st (l1 ++ l2) = runOps (runOps st l1) l2 := by
  simp [runOps, List.foldl_append]

/-- The ended witness session after n flood requests from IP ipx. -/
def wFloodSt (n : Nat) : DOState :=
  { wEndSt with
    generalLimiter := ⟨[("ipx", List.replicate n 700)], RATE_LIMITS_GENERAL⟩ }

set_option maxRecDepth 8000 in
/-- Counterexample to C7 as stated: end the witness session, then send 300
requests from one IP — each is answered SESSION_NOT_FOUND, yet each is
recorded by the general per-IP rate limiter before the session guard runs —
and the next correct-password read from that IP is answered RATE_LIMITED
429, not SESSION_NOT_FOUND 404. -/
theorem ended_c7_counterexample :
    handleEndSession wSt2 wEndInp = (.ok (), wEndSt) ∧
    runOps wEndSt (List.replicate 300 (Op.unknownPath "ipx" 700)) = wFloodSt 300 ∧
    errInfo (fetchStep (wFloodSt 300)
        (Op.read "ipx" ⟨some "spw", some "tok2", "p2", none, none, 700⟩))
      = some (.RATE_LIMITED, 429) ∧
    errInfo (fetchStep (wFloodSt 300)
        (Op.read "ipx" ⟨some "spw", some "tok2", "p2", none, none, 700⟩))
      ≠ some (.SESSION_NOT_FOUND, 404) := by
  refine ⟨by decide, ?_, by decide, by decide⟩
  have hsplit : (List.replicate 300 (Op.unknownPath "ipx" 700) : List Op)
      = List.replicate 50 (Op.unknownPath "ipx" 700) ++
        (List.replicate 50 (Op.unknownPath "ipx" 700) ++
        (List.replicate 50 (Op.unknownPath "ipx" 700) ++
        (List.replicate 50 (Op.unknownPath "ipx" 700) ++
        (List.replicate 50 (Op.unknownPath "ipx" 700) ++
        List.replicate 50 (Op.unknownPath "ipx" 700))))) := by
    simp [← List.replicate_add]
  have e1 : runOps wEndSt (List.replicate 50 (Op.unknownPath "ipx" 700))
      = wFloodSt 50 := by decide
  have e2 : runOps (wFloodSt 50) (List.replicate 50 (Op.unknownPath "ipx" 700))
      = wFloodSt 100 := by decide
  have e3 : runOps (wFloodSt 100) (List.replicate 50 (Op.unknownPath "ipx" 700))
      = wFloodSt 150 := by decide
  have e4 : runOps (wFloodSt 150) (List.replicate 50 (Op.unknownPath "ipx" 700))
      = wFloodSt 200 := by decide
  have e5 : runOps (wFloodSt 200) (List.replicate 50 (Op.unknownPath "ipx" 700))
      = wFloodSt 250 := by decide
  have e6 : runOps (wFloodSt 250) (List.replicate 50 (Op.unknownPath "ipx" 700))
      = wFloodSt 300 := by decide
  rw [hsplit, runOps_append, e1, runOps_append, e2, runOps_append, e3,
    runOps_append, e4, runOps_append, e5, e6]

/-! ### C1: sliding-window eviction across a sequence of sends -/

/-- The stored message a send input gives rise to. -/
def mkStoredMessage (inp : SendInput) : StoredMessage :=
  ⟨inp.msgId, inp.participant_id, inp.content, inp.now⟩

/-- Run a sequence of sendMessage calls against one instance. -/
def runSends (st : DOState) (inputs : List SendInput) : DOState :=
  inputs.foldl (fun s i => (handleSendMessage s i).2) st

/-- Every send in the sequence succeeded. -/
def sendsOk (st : DOState) : List SendInput → Bool
  | [] => true
  | i :: rest =>
    (handleSendMessage st i).1.isOk && sendsOk (handleSendMessage st i).2 rest

/-- A successful send appends through the sliding window and touches
neither the cap nor the read cursors. -/
theorem send_ok_effects (st : DOState) (i : SendInput)
    (r : Except ChatError SendMessageResponse) (st2 : DOState)
    (heq : handleSendMessage st i = (r, st2)) (hok : r.isOk = true) :
    st2.messages = slideAppend st.maxMessages st.messages (mkStoredMessage i) ∧
    st2.maxMessages = st.maxMessages ∧
    st2.readCursors = st.readCursors ∧
    st2.maxMessageLength = st.maxMessageLength := by
  unfold handleSendMessage at heq
  split at heq
  · injection heq with h1 h2
    rw [← h1] at hok
    simp [Except.isOk, Except.toBool] at hok
  · split at heq
    · injection heq with h1 h2
      rw [← h1] at hok
      simp [Except.isOk, Except.toBool] at hok
    · split at heq
      · injection heq with h1 h2
        rw [← h1] at hok
        simp [Except.isOk, Except.toBool] at hok
      · split at heq
        · injection heq with h1 h2
          rw [← h1] at hok
          simp [Except.isOk, Except.toBool] at hok
        · split at heq
          · injection heq with h1 h2
            rw [← h1] at hok
            simp [Except.isOk, Except.toBool] at hok
          · split at heq
            · injection heq with h1 h2
              rw [← h1] at hok
              simp [Except.isOk, Except.toBool] at hok
            · simp only [] at heq
              split at heq
              · injection heq with h1 h2
                rw [← h1] at hok
                simp [Except.isOk, Except.toBool] at hok
              · injection heq with h1 h2
                rw [← h2]
                exact ⟨rfl, rfl, rfl, rfl⟩

/-- A successful read returns the page after the resolved cursor (here up
to message ids), leaves the log and caps alone, and advances the stored
cursor to the last returned id. -/
theorem read_ok_state (st : DOState) (inp : ReadInput)
    (r : Except ChatError ReadMessagesResponse) (st2 : DOState)
    (heq : handleReadMessages st inp = (r, st2)) (resp : ReadMessagesResponse)
    (hr : r = .ok resp) :
    validLimitParam inp.limitParam = true ∧
    resp.messages.map (fun mi => mi.id)
      = ((sliceAfter st.messages
          (cursorStart st.messages
            (resolveCursor st.readCursors inp.participant_id inp.after))
          (inp.limitParam.getD DEFAULT_MESSAGE_LIMIT)).1).map (fun m => m.id) ∧
    resp.has_more
      = (sliceAfter st.messages
          (cursorStart st.messages
            (resolveCursor st.readCursors inp.participant_id inp.after))
          (inp.limitParam.getD DEFAULT_MESSAGE_LIMIT)).2 ∧
    st2.messages = st.messages ∧
    st2.maxMessages = st.maxMessages ∧
    st2.maxMessageLength = st.maxMessageLength ∧
    st2.readCursors
      = (match ((sliceAfter st.messages
            (cursorStart st.messages
              (resolveCursor st.readCursors inp.participant_id inp.after))
            (inp.limitParam.getD DEFAULT_MESSAGE_LIMIT)).1).getLast? with
         | some m => mapSet st.readCursors inp.participant_id m.id
         | none => st.readCursors) := by
  subst hr
  unfold handleReadMessages at heq
  split at heq
  · simp at heq
  · split at heq
    · simp at heq
    · split at heq
      · simp at heq
      · split at heq
        · simp at heq
        · next hval =>
          simp only [] at heq
          split at heq
          · simp at heq
          · split at heq
            · simp at heq
            · have hvl : validLimitParam inp.limitParam = true := by
                by_contra hc
                exact hval (fun hand => hc hand.2)
              injection heq with h1 h2
              injection h1 with h1
              refine ⟨hvl, ?_, ?_, ?_, ?_, ?_, ?_⟩
              · rw [← h1]
                exact map_id_toMessageInfo _ _
              · rw [← h1]
              · rw [← h2]
              · rw [← h2]
              · rw [← h2]
              · rw [← h2]

/-- A run of all-successful sends folds the sliding window over the inputs
and leaves the cap and the read cursors alone. -/
theorem runSends_messages (inputs : List SendInput) (st : DOState)
    (hok : sendsOk st inputs = true) :
    (runSends st inputs).messages
      = (inputs.map mkStoredMessage).foldl (slideAppend st.maxMessages) st.messages ∧
    (runSends st inputs).maxMessages = st.maxMessages ∧
    (runSends st inputs).readCursors = st.readCursors ∧
    (runSends st inputs).maxMessageLength = st.maxMessageLength := by
  induction inputs generalizing st with
  | nil => exact ⟨rfl, rfl, rfl, rfl⟩
  | cons i rest ih =>
    rw [sendsOk, Bool.and_eq_true] at hok
    obtain ⟨hmsg, hmax, hcur, hlen⟩ :=
      send_ok_effects st i (handleSendMessage st i).1 (handleSendMessage st i).2
        rfl hok.1
    obtain ⟨ihm, ihmax, ihcur, ihlen⟩ := ih (handleSendMessage st i).2 hok.2
    have hrun : runSends st (i :: rest) = runSends (handleSendMessage st i).2 rest := rfl
    refine ⟨?_, ?_, ?_, ?_⟩
    · rw [hrun, ihm, hmsg, hmax, List.map_cons, List.foldl_cons]
    · rw [hrun, ihmax, hmax]
    · rw [hrun, ihcur, hcur]
    · rw [hrun, ihlen, hlen]

/-- C1: after N all-successful sends into an initially empty log with a
positive cap smaller than N, exactly maxMessages messages remain, namely
the suffix of the arrival sequence (the N - maxMessages oldest are evicted,
order preserved), and a successful read that starts at the beginning of the
log never returns an evicted message id (given globally distinct ids). -/
theorem send_eviction_fifo (st : DOState) (inputs : List SendInput)
    (hempty : st.messages = [])
    (hpos : 0 < st.maxMessages)
    (hN : st.maxMessages < inputs.length)
    (hok : sendsOk st inputs = true) :
    (runSends st inputs).messages
      = (inputs.map mkStoredMessage).drop (inputs.length - st.maxMessages) ∧
    (runSends st inputs).messages.length = st.maxMessages ∧
    (∀ (rinp : ReadInput) (resp : ReadMessagesResponse) (st2 : DOState),
      handleReadMessages (runSends st inputs) rinp = (.ok resp, st2) →
      cursorStart (runSends st inputs).messages
        (resolveCursor (runSends st inputs).readCursors
          rinp.participant_id rinp.after) = 0 →
      (inputs.map (fun i => i.msgId)).Nodup →
      ∀ mid ∈ resp.messages.map (fun mi => mi.id),
        mid ∉ (inputs.map (fun i => i.msgId)).take
          (inputs.length - st.maxMessages)) := by
  obtain ⟨hm, hmax, _, _⟩ := runSends_messages inputs st hok
  have hmain : (runSends st inputs).messages
      = (inputs.map mkStoredMessage).drop (inputs.length - st.maxMessages) := by
    rw [hm, hempty, foldl_slideAppend st.maxMessages hpos, List.length_map]
  have hlen : (runSends st inputs).messages.length = st.maxMessages := by
    rw [hmain, List.length_drop, List.length_map]
    omega
  refine ⟨hmain, hlen, ?_⟩
  intro rinp resp st2 hread hstart hnodup mid hmid
  obtain ⟨-, hids, -, -, -, -, -⟩ :=
    read_ok_state (runSends st inputs) rinp (.ok resp) st2 hread resp rfl
  rw [hstart, sliceAfter_fst, List.drop_zero] at hids
  have hmem : mid ∈ (runSends st inputs).messages.map (fun m => m.id) := by
    rw [hids] at hmid
    rw [List.map_take] at hmid
    exact List.mem_of_mem_take hmid
  have hmem2 : mid ∈ (inputs.map (fun i => i.msgId)).drop
      (inputs.length - st.maxMessages) := by
    rw [hmain, List.map_drop, List.map_map] at hmem
    exact hmem
  intro htake
  have hnodup2 : ((inputs.map (fun i => i.msgId)).take (inputs.length - st.maxMessages)
      ++ (inputs.map (fun i => i.msgId)).drop (inputs.length - st.maxMessages)).Nodup := by
    rw [List.take_append_drop]
    exact hnodup
  exact List.disjoint_of_nodup_append hnodup2 htake hmem2

def wEvSt : DOState := (handleCreate (initialState 2 50000) wCreateInp).2

def wEvSend (i : String) (n : Nat) : SendInput :=
  { sessionPassword := some "spw", authToken := some "tok1", participant_id := "p1",
    content := "hello", msgId := i, now := n }

def wEvInputs : List SendInput :=
  [wEvSend "m1" 300, wEvSend "m2" 301, wEvSend "m3" 302]

theorem send_eviction_fifo_witness :
    (wEvSt.messages = [] ∧ 0 < wEvSt.maxMessages ∧
      wEvSt.maxMessages < wEvInputs.length ∧ sendsOk wEvSt wEvInputs = true) ∧
    (runSends wEvSt wEvInputs).messages
      = (wEvInputs.map mkStoredMessage).drop
          (wEvInputs.length - wEvSt.maxMessages) ∧
    (runSends wEvSt wEvInputs).messages.length = wEvSt.maxMessages :=
  ⟨⟨by decide, by decide, by decide, by decide⟩,
    (send_eviction_fifo wEvSt wEvInputs (by decide) (by decide) (by decide)
      (by decide)).1,
    (send_eviction_fifo wEvSt wEvInputs (by decide) (by decide) (by decide)
      (by decide)).2.1⟩

/-! ### C2: read idempotence after a full (has_more = false) read -/

theorem listFindIndex_sound {α : Type} (p : α → Bool) (l : List α) (i : Nat)
    (h : listFindIndex p l = some i) :
    ∃ hlt : i < l.length, p (l.get ⟨i, hlt⟩) = true := by
  induction l generalizing i with
  | nil => simp [listFindIndex] at h
  | cons a t ih =>
    simp only [listFindIndex] at h
    split at h
    · next hp =>
      injection h with h0
      cases h0
      exact ⟨Nat.succ_pos _, hp⟩
    · cases hfi : listFindIndex p t with
      | none => rw [hfi] at h; simp at h
      | some j =>
        rw [hfi] at h
        simp only [Option.map_some'] at h
        injection h with h1
        cases h1
        obtain ⟨hj, hpj⟩ := ih j hfi
        exact ⟨Nat.succ_lt_succ hj, hpj⟩

theorem slideAppend_small {α : Type} (maxLen : Nat) (l : List α) (a : α)
    (h : l.length + 1 ≤ maxLen) : slideAppend maxLen l a = l ++ [a] := by
  have hlen : (l ++ [a]).length = l.length + 1 := by simp
  unfold slideAppend
  simp only []
  rw [hlen, if_neg (by omega)]

theorem slideAppend_big {α : Type} (maxLen : Nat) (l : List α) (a : α)
    (h : maxLen < l.length + 1) :
    slideAppend maxLen l a = (l ++ [a]).drop (l.length + 1 - maxLen) := by
  have hlen : (l ++ [a]).length = l.length + 1 := by simp
  unfold slideAppend
  simp only []
  rw [hlen, if_pos (by omega)]

/-- When a participant is caught up (the resolved cursor sits at the end of
the log), appending one fresh message through the sliding window places the
cursor exactly one position before the end, and the final slot holds the
new message. -/
theorem cursorStart_slideAppend (L : List StoredMessage) (a : StoredMessage)
    (maxLen : Nat) (hpos : 0 < maxLen)
    (c : Option String)
    (hcu : cursorStart L c = L.length)
    (hnodup : ((L ++ [a]).map (fun m => m.id)).Nodup)
    (hcnew : getStr c ≠ a.id) :
    cursorStart (slideAppend maxLen L a) c
        = (slideAppend maxLen L a).length - 1 ∧
    (slideAppend maxLen L a).drop ((slideAppend maxLen L a).length - 1)
        = [a] := by
  by_cases ht : strTruthy c = true
  · cases c with
    | none => simp [strTruthy] at ht
    | some cs =>
      have hcs' : cs ≠ "" := by simpa [strTruthy] using ht
      have hg : getStr (some cs) = cs := rfl
      rw [hg] at hcnew
      unfold cursorStart at hcu
      rw [if_pos ht, hg] at hcu
      cases hfi : listFindIndex (fun m => m.id == cs) L with
      | none =>
        rw [hfi] at hcu
        simp only [] at hcu
        have hL : L = [] := List.length_eq_zero.mp hcu.symm
        subst hL
        have hs : slideAppend maxLen [] a = [] ++ [a] :=
          slideAppend_small maxLen [] a (by simp; omega)
        simp only [List.nil_append] at hs
        rw [hs]
        refine ⟨?_, by simp⟩
        have h0 : cursorStart [a] (some cs) = 0 := by
          apply cursorStart_of_no_match
          intro m hm
          simp only [List.mem_singleton] at hm
          rw [hm]
          show (a.id == cs) = false
          exact beq_eq_false_iff_ne.mpr (fun he => hcnew he.symm)
        rw [h0]
        simp
      | some i =>
        rw [hfi] at hcu
        simp only [] at hcu
        obtain ⟨hlt, hpi⟩ := listFindIndex_sound _ L i hfi
        have hcsid : L[i].id = cs := beq_iff_eq.mp hpi
        have hLnodup : (L.map (fun m => m.id)).Nodup := by
          rw [List.map_append] at hnodup
          exact (List.nodup_append.mp hnodup).1
        have hanotin : a.id ∉ L.map (fun m => m.id) := by
          rw [List.map_append] at hnodup
          have hd := (List.nodup_append.mp hnodup).2.2
          intro hmem
          exact hd hmem (by simp)
        by_cases hbig : maxLen < L.length + 1
        · have hs := slideAppend_big maxLen L a hbig
          by_cases hm1 : maxLen = 1
          · subst hm1
            have hd : L.length + 1 - 1 = L.length := by omega
            rw [hd, List.drop_left] at hs
            rw [hs]
            refine ⟨?_, by simp⟩
            have h0 : cursorStart [a] (some cs) = 0 := by
              apply cursorStart_of_no_match
              intro m hm
              simp only [List.mem_singleton] at hm
              rw [hm]
              show (a.id == cs) = false
              refine beq_eq_false_iff_ne.mpr (fun he => ?_)
              apply hanotin
              rw [he, ← hcsid]
              exact List.mem_map_of_mem _ (List.getElem_mem hlt)
            rw [h0]
            simp
          · have hmax2 : 2 ≤ maxLen := by omega
            have hn1 : 1 ≤ L.length := by omega
            have hd1 : 1 ≤ L.length + 1 - maxLen := by omega
            have hdn : L.length + 1 - maxLen ≤ L.length - 1 := by omega
            have hsplit : (L ++ [a]).drop (L.length + 1 - maxLen)
                = L.drop (L.length + 1 - maxLen) ++ [a] := by
              rw [List.drop_append_eq_append_drop]
              have h0 : L.length + 1 - maxLen - L.length = 0 := by omega
              rw [h0, List.drop_zero]
            rw [hsplit] at hs
            have hslen : (L.drop (L.length + 1 - maxLen) ++ [a]).length = maxLen := by
              simp only [List.length_append, List.length_drop, List.length_cons,
                List.length_nil]
              omega
            have hidx2 : i - (L.length + 1 - maxLen)
                < (L.drop (L.length + 1 - maxLen)).length := by
              simp only [List.length_drop]
              omega
            have hidx : i - (L.length + 1 - maxLen)
                < (L.drop (L.length + 1 - maxLen) ++ [a]).length := by
              simp only [List.length_append, List.length_drop, List.length_cons,
                List.length_nil]
              omega
            have hdi : L.length + 1 - maxLen + (i - (L.length + 1 - maxLen)) = i := by
              omega
            have hidval : (L.drop (L.length + 1 - maxLen) ++ [a])[i - (L.length + 1 - maxLen)]
                = L[i] := by
              rw [List.getElem_append_left hidx2, List.getElem_drop]
              simp only [hdi]
            have hsub : (L.drop (L.length + 1 - maxLen) ++ [a]).Sublist (L ++ [a]) :=
              List.Sublist.append (List.drop_sublist _ L) (List.Sublist.refl [a])
            have hnd2 : ((L.drop (L.length + 1 - maxLen) ++ [a]).map
                (fun m => m.id)).Nodup :=
              List.Nodup.sublist (List.Sublist.map _ hsub) hnodup
            have hne2 : (L.drop (L.length + 1 - maxLen) ++ [a])[i - (L.length + 1 - maxLen)].id
                ≠ "" := by
              rw [hidval, hcsid]
              exact hcs'
            have hcg := cursorStart_get (L.drop (L.length + 1 - maxLen) ++ [a])
              hnd2 (i - (L.length + 1 - maxLen)) hidx hne2
            rw [hidval, hcsid] at hcg
            rw [hs]
            refine ⟨?_, ?_⟩
            · rw [hcg, hslen]
              omega
            · rw [hslen]
              have hml : maxLen - 1 = (L.drop (L.length + 1 - maxLen)).length := by
                simp only [List.length_drop]
                omega
              rw [hml, List.drop_left]
        · have hs := slideAppend_small maxLen L a (by omega)
          rw [hs]
          have hidx : i < (L ++ [a]).length := by
            simp only [List.length_append, List.length_cons, List.length_nil]
            omega
          have hidval : (L ++ [a])[i] = L[i] := List.getElem_append_left hlt
          have hne2 : (L ++ [a])[i].id ≠ "" := by
            rw [hidval, hcsid]
            exact hcs'
          have hcg := cursorStart_get (L ++ [a]) hnodup i hidx hne2
          rw [hidval, hcsid] at hcg
          refine ⟨?_, ?_⟩
          · rw [hcg]
            simp only [List.length_append, List.length_cons, List.length_nil]
            omega
          · have hlen1 : (L ++ [a]).length - 1 = L.length := by
              simp only [List.length_append, List.length_cons, List.length_nil]
              omega
            rw [hlen1, List.drop_left]
  · have hf : strTruthy c = false := by
      cases hb : strTruthy c
      · rfl
      · exact absurd hb ht
    have h0 : cursorStart L c = 0 := by
      unfold cursorStart
      simp [hf]
    have hL : L = [] := by
      rw [h0] at hcu
      exact List.length_eq_zero.mp hcu.symm
    subst hL
    have hs : slideAppend maxLen [] a = [] ++ [a] :=
      slideAppend_small maxLen [] a (by simp; omega)
    simp only [List.nil_append] at hs
    rw [hs]
    refine ⟨?_, by simp⟩
    have h1 : cursorStart [a] c = 0 := by
      unfold cursorStart
      simp [hf]
    rw [h1]
    simp

/-- A full read (has_more = false, no explicit after) leaves the participant
caught up: the stored cursor resolves to the end of the unchanged log. -/
theorem read_full_catchup (st : DOState) (inp : ReadInput)
    (resp : ReadMessagesResponse) (st1 : DOState)
    (heq : handleReadMessages st inp = (.ok resp, st1))
    (hafter : inp.after = none)
    (hmore : resp.has_more = false)
    (hnodup : (st.messages.map (fun m => m.id)).Nodup)
    (hne : ∀ m ∈ st.messages, m.id ≠ "") :
    st1.messages = st.messages ∧
    st1.maxMessages = st.maxMessages ∧
    cursorStart st1.messages
        (resolveCursor st1.readCursors inp.participant_id none)
      = st1.messages.length := by
  obtain ⟨hvl, hids, hhm, hmsg, hmax, hmlen, hcur⟩ :=
    read_ok_state st inp (.ok resp) st1 heq resp rfl
  rw [hafter] at hhm hcur
  refine ⟨hmsg, hmax, ?_⟩
  have hmore2 : (sliceAfter st.messages
      (cursorStart st.messages
        (resolveCursor st.readCursors inp.participant_id none))
      (inp.limitParam.getD DEFAULT_MESSAGE_LIMIT)).2 = false :=
    hhm.symm.trans hmore
  have hR := sliceAfter_fst_of_no_more st.messages
    (cursorStart st.messages
      (resolveCursor st.readCursors inp.participant_id none))
    (inp.limitParam.getD DEFAULT_MESSAGE_LIMIT) hmore2
  rw [hR] at hcur
  have hle := cursorStart_le_length st.messages
    (resolveCursor st.readCursors inp.participant_id none)
  cases hlast : (st.messages.drop
      (cursorStart st.messages
        (resolveCursor st.readCursors inp.participant_id none))).getLast? with
  | none =>
    rw [hlast] at hcur
    simp only [] at hcur
    have hnil := List.getLast?_eq_none_iff.mp hlast
    have hlen0 := congrArg List.length hnil
    rw [List.length_drop] at hlen0
    simp only [List.length_nil] at hlen0
    rw [hmsg, hcur]
    omega
  | some m =>
    rw [hlast] at hcur
    simp only [] at hcur
    have hlt : cursorStart st.messages
        (resolveCursor st.readCursors inp.participant_id none)
        < st.messages.length := by
      by_contra hge
      push_neg at hge
      rw [List.drop_eq_nil_of_le hge] at hlast
      simp at hlast
    have hgl := List.getLast?_eq_getElem? (st.messages.drop
      (cursorStart st.messages
        (resolveCursor st.readCursors inp.participant_id none)))
    rw [hlast, List.length_drop, List.getElem?_drop] at hgl
    have hidx : cursorStart st.messages
        (resolveCursor st.readCursors inp.participant_id none)
        + (st.messages.length
          - cursorStart st.messages
              (resolveCursor st.readCursors inp.participant_id none) - 1)
        = st.messages.length - 1 := by omega
    rw [hidx] at hgl
    obtain ⟨hb, hmv⟩ := List.getElem?_eq_some_iff.mp hgl.symm
    rw [hmsg, hcur]
    have hres : resolveCursor (mapSet st.readCursors inp.participant_id m.id)
        inp.participant_id none = some m.id :=
      mapGet_mapSet_self st.readCursors inp.participant_id m.id
    rw [hres, ← hmv]
    have hmmem : m ∈ st.messages := hmv ▸ List.getElem_mem hb
    have hcg := cursorStart_get st.messages hnodup (st.messages.length - 1) hb
      (by rw [hmv]; exact hne m hmmem)
    rw [hcg]
    omega

/-- A read by a caught-up participant (no explicit after) returns no
messages. -/
theorem read_caughtup_empty (st : DOState) (inp : ReadInput)
    (resp : ReadMessagesResponse) (st2 : DOState)
    (heq : handleReadMessages st inp = (.ok resp, st2))
    (hafter : inp.after = none)
    (hcu : cursorStart st.messages
        (resolveCursor st.readCursors inp.participant_id none)
      = st.messages.length) :
    resp.messages = [] := by
  obtain ⟨hvl, hids, hhm, hmsg, hmax, hmlen, hcur⟩ :=
    read_ok_state st inp (.ok resp) st2 heq resp rfl
  rw [hafter, hcu, sliceAfter_fst, List.drop_length] at hids
  simp only [List.take_nil, List.map_nil] at hids
  exact List.map_eq_nil_iff.mp hids

def wC2Read1 : ReadInput := ⟨some "spw", some "tok2", "p2", some 1, none, 400⟩

/-- The witness instance after a first paged (limit 1) read by p2. -/
def wC2PagedSt : DOState := (handleReadMessages wSt3 wC2Read1).2

def wC2Read2 : ReadInput := ⟨some "spw", some "tok2", "p2", some 1, none, 401⟩

/-- C2 counterexample: the witness session stores m1 and m2; a read with
limit 1 returns m1 with has_more = true, and a second read with no
intervening send returns m2 — not the empty list the claim asserts for
every second read. -/
theorem read_c2_counterexample :
    (handleReadMessages wSt3 wC2Read1).1.map
        (fun r => r.messages.map (fun mi => mi.id)) = .ok ["m1"] ∧
    (handleReadMessages wSt3 wC2Read1).1.map (fun r => r.has_more)
        = .ok true ∧
    (handleReadMessages wC2PagedSt wC2Read2).1.map
        (fun r => r.messages.map (fun mi => mi.id)) = .ok ["m2"] :=
  ⟨by decide, by decide, by decide⟩

/-- C2 (amended): after a successful readMessages call with no explicit
after parameter whose response has has_more = false, the participant is
caught up; a second read with no intervening send returns an empty message
list, and after exactly one successful send of a fresh message the next
read by that participant returns exactly that one new message.  (When the
first read reports has_more = true, the second read instead returns the
next page, as the counterexample shows.) -/
theorem read_idempotence (st : DOState) (inp1 : ReadInput)
    (resp1 : ReadMessagesResponse) (st1 : DOState)
    (h1 : handleReadMessages st inp1 = (.ok resp1, st1))
    (hafter1 : inp1.after = none)
    (hmore : resp1.has_more = false)
    (hnodup : (st.messages.map (fun m => m.id)).Nodup)
    (hne : ∀ m ∈ st.messages, m.id ≠ "") :
    (∀ (inp2 : ReadInput) (resp2 : ReadMessagesResponse) (st2 : DOState),
      inp2.participant_id = inp1.participant_id → inp2.after = none →
      handleReadMessages st1 inp2 = (.ok resp2, st2) →
      resp2.messages = []) ∧
    (∀ (sinp : SendInput) (rs : Except ChatError SendMessageResponse)
        (st1s : DOState),
      handleSendMessage st1 sinp = (rs, st1s) → rs.isOk = true →
      0 < st.maxMessages →
      sinp.msgId ∉ st.messages.map (fun m => m.id) →
      sinp.msgId ≠ "" →
      resolveCursor st1.readCursors inp1.participant_id none
        ≠ some sinp.msgId →
      ∀ (inp3 : ReadInput) (resp3 : ReadMessagesResponse) (st3 : DOState),
        inp3.participant_id = inp1.participant_id → inp3.after = none →
        handleReadMessages st1s inp3 = (.ok resp3, st3) →
        resp3.messages.map (fun mi => mi.id) = [sinp.msgId]) := by
  obtain ⟨hm1, hmax1, hcu⟩ :=
    read_full_catchup st inp1 resp1 st1 h1 hafter1 hmore hnodup hne
  rw [hm1] at hcu
  constructor
  · intro inp2 resp2 st2 hp2 ha2 h2
    apply read_caughtup_empty st1 inp2 resp2 st2 h2 ha2
    rw [hp2, hm1]
    exact hcu
  · intro sinp rs st1s hsend hok hpos hfresh hmne hcne inp3 resp3 st3 hp3 ha3 h3
    obtain ⟨hsm, hsmax, hscur, hslen⟩ := send_ok_effects st1 sinp rs st1s hsend hok
    obtain ⟨hvl3, hids3, hhm3, _, _, _, _⟩ :=
      read_ok_state st1s inp3 (.ok resp3) st3 h3 resp3 rfl
    rw [ha3, hp3, hscur, hsm, hm1, hmax1] at hids3
    have hnodup2 : ((st.messages ++ [mkStoredMessage sinp]).map
        (fun m => m.id)).Nodup := by
      rw [List.map_append, List.nodup_append]
      refine ⟨hnodup, by simp, ?_⟩
      intro x hx hx2
      simp only [List.map_cons, List.map_nil, List.mem_singleton] at hx2
      subst hx2
      exact hfresh hx
    have hcnew : getStr (resolveCursor st1.readCursors inp1.participant_id none)
        ≠ (mkStoredMessage sinp).id := by
      cases hc : resolveCursor st1.readCursors inp1.participant_id none with
      | none => exact fun h => hmne h.symm
      | some cs =>
        intro h
        apply hcne
        rw [hc]
        exact congrArg some h
    obtain ⟨hcs2, hdrop2⟩ := cursorStart_slideAppend st.messages
      (mkStoredMessage sinp) st.maxMessages hpos
      (resolveCursor st1.readCursors inp1.participant_id none) hcu hnodup2 hcnew
    rw [hcs2, sliceAfter_fst, hdrop2] at hids3
    have hk3 : 1 ≤ inp3.limitParam.getD DEFAULT_MESSAGE_LIMIT :=
      validLimitParam_pos _ hvl3
    have htake : [mkStoredMessage sinp].take
        (inp3.limitParam.getD DEFAULT_MESSAGE_LIMIT) = [mkStoredMessage sinp] :=
      List.take_of_length_le (by simpa using hk3)
    rw [htake] at hids3
    simpa [mkStoredMessage] using hids3

def wC2CatchRead : ReadInput := ⟨some "spw", some "tok2", "p2", none, none, 420⟩

/-- The response of the catching-up read on the witness session. -/
def wC2Resp : ReadMessagesResponse :=
  match (handleReadMessages wSt3 wC2CatchRead).1 with
  | .ok r => r
  | .error _ => ⟨[], none, false⟩

/-- The witness instance after p2 caught up. -/
def wC2CaughtSt : DOState := (handleReadMessages wSt3 wC2CatchRead).2

def wC2Again : ReadInput := ⟨some "spw", some "tok2", "p2", none, none, 430⟩

/-- The response of the repeated read on the caught-up witness instance. -/
def wC2Resp2 : ReadMessagesResponse :=
  match (handleReadMessages wC2CaughtSt wC2Again).1 with
  | .ok r => r
  | .error _ => ⟨[], none, false⟩

def wC2St2 : DOState := (handleReadMessages wC2CaughtSt wC2Again).2

theorem read_idempotence_witness :
    wC2Resp.has_more = false ∧ wC2Resp2.messages = [] :=
  ⟨by decide,
    (read_idempotence wSt3 wC2CatchRead wC2Resp wC2CaughtSt (by decide)
        (by decide) (by decide) (by decide) (by decide)).1
      wC2Again wC2Resp2 wC2St2 (by decide) (by decide) (by decide)⟩

/-! ### C3: read-cursor movement and removal -/

/-- The witness session holding messages m1, m2 and m3. -/
def wC3St : DOState := (handleSendMessage wSt3 (wSendInp "m3" 302)).2

def wC3ReadAll : ReadInput := ⟨some "spw", some "tok2", "p2", none, none, 440⟩

/-- The response of the full read of the three-message witness session. -/
def wC3RespAll : ReadMessagesResponse :=
  match (handleReadMessages wC3St wC3ReadAll).1 with
  | .ok r => r
  | .error _ => ⟨[], none, false⟩

/-- The three-message witness instance with p2 caught up (cursor at m3). -/
def wC3CaughtSt : DOState := (handleReadMessages wC3St wC3ReadAll).2

def wC3Back : ReadInput := ⟨some "spw", some "tok2", "p2", some 1, some "m1", 441⟩

/-- The witness instance after the read with the explicit after=m1. -/
def wC3BackSt : DOState := (handleReadMessages wC3CaughtSt wC3Back).2

/-- C3 counterexample: with messages m1,m2,m3 and the stored cursor of p2
at m3 (log position 3), a successful read passing after=m1 with limit 1
rewrites the stored cursor to m2, log position 2 — the stored cursor moved
backward while the log was unchanged. -/
theorem read_c3_counterexample :
    mapGet wC3CaughtSt.readCursors "p2" = some "m3" ∧
    cursorStart wC3CaughtSt.messages (mapGet wC3CaughtSt.readCursors "p2") = 3 ∧
    (handleReadMessages wC3CaughtSt wC3Back).1.isOk = true ∧
    wC3BackSt.messages = wC3CaughtSt.messages ∧
    mapGet wC3BackSt.readCursors "p2" = some "m2" ∧
    cursorStart wC3BackSt.messages (mapGet wC3BackSt.readCursors "p2") = 2 :=
  ⟨by decide, by decide, by decide, by decide, by decide, by decide⟩

/-- C3 (amended): for reads that do not pass an explicit after parameter
the stored cursor only advances: the position the stored cursor resolves
to after the call is at least its position before the call (the log itself
being unchanged by the read); and a successful removeParticipant deletes
the target's stored cursor entry.  A read with an explicit after parameter
can move the stored cursor backward, as the counterexample shows. -/
theorem cursor_forward_and_removed (st : DOState) :
    (∀ (inp : ReadInput) (resp : ReadMessagesResponse) (st2 : DOState),
      inp.after = none →
      handleReadMessages st inp = (.ok resp, st2) →
      (st.messages.map (fun m => m.id)).Nodup →
      (∀ m ∈ st.messages, m.id ≠ "") →
      st2.messages = st.messages ∧
      cursorStart st.messages
          (resolveCursor st.readCursors inp.participant_id none)
        ≤ cursorStart st2.messages
            (resolveCursor st2.readCursors inp.participant_id none)) ∧
    (∀ (rinp : RemoveInput) (st' : DOState),
      handleRemoveParticipant st rinp = (.ok (), st') →
      mapGet st'.readCursors rinp.targetId = none) := by
  constructor
  · intro inp resp st2 hafter heq hnodup hne
    obtain ⟨hvl, hids, hhm, hmsg, hmax, hmlen, hcur⟩ :=
      read_ok_state st inp (.ok resp) st2 heq resp rfl
    rw [hafter] at hcur
    rw [sliceAfter_fst] at hcur
    set s0 := cursorStart st.messages
      (resolveCursor st.readCursors inp.participant_id none) with hs0def
    set k := inp.limitParam.getD DEFAULT_MESSAGE_LIMIT with hkdef
    refine ⟨hmsg, ?_⟩
    rw [hmsg]
    cases hlast : ((st.messages.drop s0).take k).getLast? with
    | none =>
      rw [hlast] at hcur
      simp only [] at hcur
      rw [hcur]
    | some m =>
      rw [hlast] at hcur
      simp only [] at hcur
      rw [hcur]
      have hres : resolveCursor (mapSet st.readCursors inp.participant_id m.id)
          inp.participant_id none = some m.id :=
        mapGet_mapSet_self st.readCursors inp.participant_id m.id
      rw [hres]
      have hgl := List.getLast?_eq_getElem? ((st.messages.drop s0).take k)
      rw [hlast] at hgl
      obtain ⟨hb, hmv⟩ := List.getElem?_eq_some_iff.mp hgl.symm
      rw [List.getElem_take, List.getElem_drop] at hmv
      have hlen2 : ((st.messages.drop s0).take k).length
          = k ⊓ (st.messages.length - s0) := by
        rw [List.length_take, List.length_drop]
      have hblt : s0 + (((st.messages.drop s0).take k).length - 1)
          < st.messages.length := by
        rw [hlen2] at hb ⊢
        omega
      have hcg := cursorStart_get st.messages hnodup
        (s0 + (((st.messages.drop s0).take k).length - 1)) hblt
        (hne _ (List.getElem_mem hblt))
      rw [← hmv, hcg]
      omega
  · intro rinp st' hrm
    obtain ⟨sess, hs, hsome, hst⟩ := handleRemoveParticipant_ok_state st rinp st' hrm
    rw [hst]
    exact mapGet_mapDelete_self st.readCursors rinp.targetId

def wC3RemInp : RemoveInput := ⟨some "spw", none, some "tok2", "p2", 450⟩

/-- The witness instance after p2 removed itself. -/
def wC3RemSt : DOState := (handleRemoveParticipant wC3CaughtSt wC3RemInp).2

theorem cursor_forward_and_removed_witness :
    (cursorStart wC3St.messages (resolveCursor wC3St.readCursors "p2" none)
      ≤ cursorStart wC3CaughtSt.messages
          (resolveCursor wC3CaughtSt.readCursors "p2" none)) ∧
    mapGet wC3RemSt.readCursors "p2" = none :=
  ⟨((cursor_forward_and_removed wC3St).1 wC3ReadAll wC3RespAll wC3CaughtSt
      (by decide) (by decide) (by decide) (by decide)).2,
    (cursor_forward_and_removed wC3CaughtSt).2 wC3RemInp wC3RemSt (by decide)⟩

end ClaudeChat
